import Mathlib

/-
  Verification development for the GamePlay engine's render-state subsystem
  (gameplay/src/RenderState.cpp / RenderState.h).

  The C++ code is shallowly embedded: the process-wide singleton
  `StateBlock::_defaultState` (which caches the GPU's current fixed-function
  state) is passed explicitly as a `StateBlock` value, and every GL call the
  code would issue is recorded in a returned `List GpuCall` trace.  Machine
  `long` bit masks become `Nat` with `|||`, `&&&` and `clearMask`
  (the C idiom `x &= ~m`).  C strings become `String`
  (sequences of characters); `NULL` string arguments become `Option.none`.
-/

set_option maxHeartbeats 1600000

namespace GamePlay

/-- The C idiom `x &= ~m` (clear the bits of mask `m` in `x`), written with
kernel-computable operations; `clearMask_testBit` below proves it performs
exactly the bitwise AND-with-complement of the source. -/
def clearMask (x m : Nat) : Nat := x ^^^ (x &&& m)

/-- Render state override bit `RS_BLEND` (RenderState.cpp line 9). -/
def RS_BLEND : Nat := 1

/-- Render state override bit `RS_BLEND_FUNC` (RenderState.cpp line 10). -/
def RS_BLEND_FUNC : Nat := 2

/-- Render state override bit `RS_CULL_FACE` (RenderState.cpp line 11). -/
def RS_CULL_FACE : Nat := 4

/-- Render state override bit `RS_DEPTH_TEST` (RenderState.cpp line 12). -/
def RS_DEPTH_TEST : Nat := 8

/-- Render state override bit `RS_DEPTH_WRITE` (RenderState.cpp line 13). -/
def RS_DEPTH_WRITE : Nat := 16

/-- The `RenderState::Blend` enumeration (RenderState.h).  The GL numeric
values of the constants are irrelevant to the algorithms; only identity
and comparison are used. -/
inductive Blend where
  | BLEND_ZERO
  | BLEND_ONE
  | BLEND_SRC_COLOR
  | BLEND_ONE_MINUS_SRC_COLOR
  | BLEND_DST_COLOR
  | BLEND_ONE_MINUS_DST_COLOR
  | BLEND_SRC_ALPHA
  | BLEND_ONE_MINUS_SRC_ALPHA
  | BLEND_DST_ALPHA
  | BLEND_ONE_MINUS_DST_ALPHA
  | BLEND_CONSTANT_ALPHA
  | BLEND_ONE_MINUS_CONSTANT_ALPHA
  | BLEND_SRC_ALPHA_SATURATE
  deriving DecidableEq, Repr

/-- A `RenderState::StateBlock`: the five fixed-function fields plus the
override bit mask `_bits`.  The same structure is used for ordinary blocks
and for the process-wide `_defaultState` singleton (whose fields cache the
GPU's current state and whose `bits` accumulate which states have been
changed from their defaults). -/
structure StateBlock where
  cullFaceEnabled : Bool
  depthTestEnabled : Bool
  depthWriteEnabled : Bool
  blendEnabled : Bool
  blendSrc : Blend
  blendDst : Blend
  bits : Nat
  deriving DecidableEq, Repr

/-- `StateBlock::StateBlock()` default constructor (RenderState.cpp 356-361). -/
def StateBlock.init : StateBlock :=
  { cullFaceEnabled := false, depthTestEnabled := false, depthWriteEnabled := false,
    blendEnabled := false, blendSrc := .BLEND_ONE, blendDst := .BLEND_ZERO, bits := 0 }

/-- A GL call issued by the state-block algorithm, or a material-parameter
upload performed by `MaterialParameter::bind(effect)` during
`RenderState::bind(pass)` (recorded by parameter name). -/
inductive GpuCall where
  | enableBlend
  | disableBlend
  | blendFunc (src dst : Blend)
  | enableCullFace
  | disableCullFace
  | enableDepthTest
  | disableDepthTest
  | depthMask (flag : Bool)
  | bindParam (name : String)
  deriving DecidableEq, Repr

/-- `StateBlock::setBlend` (RenderState.cpp 574-585). -/
def StateBlock.setBlend (sb : StateBlock) (enabled : Bool) : StateBlock :=
  let sb := { sb with blendEnabled := enabled }
  if !enabled then { sb with bits := clearMask sb.bits RS_BLEND }
  else { sb with bits := sb.bits ||| RS_BLEND }

/-- `StateBlock::setBlendSrc` (RenderState.cpp 587-599). -/
def StateBlock.setBlendSrc (sb : StateBlock) (blend : Blend) : StateBlock :=
  let sb := { sb with blendSrc := blend }
  if sb.blendSrc = .BLEND_ONE ∧ sb.blendDst = .BLEND_ZERO then
    { sb with bits := clearMask sb.bits RS_BLEND_FUNC }
  else { sb with bits := sb.bits ||| RS_BLEND_FUNC }

/-- `StateBlock::setBlendDst` (RenderState.cpp 601-613). -/
def StateBlock.setBlendDst (sb : StateBlock) (blend : Blend) : StateBlock :=
  let sb := { sb with blendDst := blend }
  if sb.blendSrc = .BLEND_ONE ∧ sb.blendDst = .BLEND_ZERO then
    { sb with bits := clearMask sb.bits RS_BLEND_FUNC }
  else { sb with bits := sb.bits ||| RS_BLEND_FUNC }

/-- `StateBlock::setCullFace` (RenderState.cpp 615-626). -/
def StateBlock.setCullFace (sb : StateBlock) (enabled : Bool) : StateBlock :=
  let sb := { sb with cullFaceEnabled := enabled }
  if !enabled then { sb with bits := clearMask sb.bits RS_CULL_FACE }
  else { sb with bits := sb.bits ||| RS_CULL_FACE }

/-- `StateBlock::setDepthTest` (RenderState.cpp 628-639). -/
def StateBlock.setDepthTest (sb : StateBlock) (enabled : Bool) : StateBlock :=
  let sb := { sb with depthTestEnabled := enabled }
  if !enabled then { sb with bits := clearMask sb.bits RS_DEPTH_TEST }
  else { sb with bits := sb.bits ||| RS_DEPTH_TEST }

/-- `StateBlock::setDepthWrite` (RenderState.cpp 641-652); note the bit is
set when depth writing is DISABLED (default is enabled). -/
def StateBlock.setDepthWrite (sb : StateBlock) (enabled : Bool) : StateBlock :=
  let sb := { sb with depthWriteEnabled := enabled }
  if enabled then { sb with bits := clearMask sb.bits RS_DEPTH_WRITE }
  else { sb with bits := sb.bits ||| RS_DEPTH_WRITE }

/-- One if-block of `StateBlock::bindNoRestore()`: if this block's bit `m`
is set in `bits` and the block's value differs from the singleton's
cached value (`differs`), issue `call` and update the singleton's cached
value (`upd`).  `s` carries the singleton so far and the calls issued by
the previous if-blocks. -/
def bindStep (bits m : Nat) (differs : StateBlock → Bool) (upd : StateBlock → StateBlock)
    (call : GpuCall) (s : StateBlock × List GpuCall) : StateBlock × List GpuCall :=
  if bits &&& m ≠ 0 ∧ differs s.1 = true then (upd s.1, s.2 ++ [call]) else s

/-- `StateBlock::bindNoRestore()` (RenderState.cpp 389-431).  `sb` is `this`,
`g` is the singleton `_defaultState`; the result is the updated singleton
plus the GL calls issued, in program order.  Each `bindStep` application
is one if-block of the source, in source order; the final record update
is `_defaultState->_bits |= _bits`. -/
def StateBlock.bindNoRestore (sb g : StateBlock) : StateBlock × List GpuCall :=
  let s := bindStep sb.bits RS_BLEND (fun d => sb.blendEnabled ≠ d.blendEnabled)
    (fun d => { d with blendEnabled := sb.blendEnabled })
    (if sb.blendEnabled then .enableBlend else .disableBlend) (g, [])
  let s := bindStep sb.bits RS_BLEND_FUNC
    (fun d => sb.blendSrc ≠ d.blendSrc ∨ sb.blendDst ≠ d.blendDst)
    (fun d => { d with blendSrc := sb.blendSrc, blendDst := sb.blendDst })
    (.blendFunc sb.blendSrc sb.blendDst) s
  let s := bindStep sb.bits RS_CULL_FACE (fun d => sb.cullFaceEnabled ≠ d.cullFaceEnabled)
    (fun d => { d with cullFaceEnabled := sb.cullFaceEnabled })
    (if sb.cullFaceEnabled then .enableCullFace else .disableCullFace) s
  let s := bindStep sb.bits RS_DEPTH_TEST (fun d => sb.depthTestEnabled ≠ d.depthTestEnabled)
    (fun d => { d with depthTestEnabled := sb.depthTestEnabled })
    (if sb.depthTestEnabled then .enableDepthTest else .disableDepthTest) s
  let s := bindStep sb.bits RS_DEPTH_WRITE (fun d => sb.depthWriteEnabled ≠ d.depthWriteEnabled)
    (fun d => { d with depthWriteEnabled := sb.depthWriteEnabled })
    (.depthMask sb.depthWriteEnabled) s
  ({ s.1 with bits := s.1.bits ||| sb.bits }, s.2)

/-- One if-block of `StateBlock::restore(stateOverrideBits)`: if the
incoming override bits do not claim bit `m` and the singleton's bit `m`
is set, issue `call`, clear bit `m` in the singleton and reset the
cached value (`upd`). -/
def restoreStep (stateOverrideBits m : Nat) (upd : StateBlock → StateBlock) (call : GpuCall)
    (s : StateBlock × List GpuCall) : StateBlock × List GpuCall :=
  if stateOverrideBits &&& m = 0 ∧ s.1.bits &&& m ≠ 0 then
    (upd { s.1 with bits := clearMask s.1.bits m }, s.2 ++ [call])
  else s

/-- `StateBlock::restore(long stateOverrideBits)` (RenderState.cpp 433-475).
`g` is the singleton `_defaultState`.  Each `restoreStep` application is
one if-block of the source, in source order. -/
def StateBlock.restore (g : StateBlock) (stateOverrideBits : Nat) : StateBlock × List GpuCall :=
  -- If there is no state to restore (i.e. no non-default state), do nothing.
  if g.bits = 0 then (g, [])
  else
    let s := restoreStep stateOverrideBits RS_BLEND
      (fun d => { d with blendEnabled := false }) .disableBlend (g, [])
    let s := restoreStep stateOverrideBits RS_BLEND_FUNC
      (fun d => { d with blendSrc := .BLEND_ONE, blendDst := .BLEND_ZERO })
      (.blendFunc .BLEND_ONE .BLEND_ZERO) s
    let s := restoreStep stateOverrideBits RS_CULL_FACE
      (fun d => { d with cullFaceEnabled := false }) .disableCullFace s
    let s := restoreStep stateOverrideBits RS_DEPTH_TEST
      (fun d => { d with depthTestEnabled := false }) .disableDepthTest s
    let s := restoreStep stateOverrideBits RS_DEPTH_WRITE
      (fun d => { d with depthWriteEnabled := true }) (.depthMask true) s
    s

/-- `StateBlock::bind()` (RenderState.cpp 377-387): restore with only this
block's override bits, then apply this block. -/
def StateBlock.bind (sb g : StateBlock) : StateBlock × List GpuCall :=
  let r := StateBlock.restore g sb.bits
  let a := StateBlock.bindNoRestore sb r.1
  (a.1, r.2 ++ a.2)

/-- Selector for one of the five tracked render states. -/
inductive StateField where
  | blend
  | blendFunc
  | cullFace
  | depthTest
  | depthWrite
  deriving DecidableEq, Repr

/-- The override bit corresponding to a tracked state. -/
def fieldBit : StateField → Nat
  | .blend => RS_BLEND
  | .blendFunc => RS_BLEND_FUNC
  | .cullFace => RS_CULL_FACE
  | .depthTest => RS_DEPTH_TEST
  | .depthWrite => RS_DEPTH_WRITE

/-- Value of one tracked state of a block (the blend function is the pair of
blend factors). -/
inductive FieldVal where
  | b (x : Bool)
  | f (src dst : Blend)
  deriving DecidableEq, Repr

/-- Read one tracked state out of a block. -/
def fieldVal : StateField → StateBlock → FieldVal
  | .blend, sb => .b sb.blendEnabled
  | .blendFunc, sb => .f sb.blendSrc sb.blendDst
  | .cullFace, sb => .b sb.cullFaceEnabled
  | .depthTest, sb => .b sb.depthTestEnabled
  | .depthWrite, sb => .b sb.depthWriteEnabled

/-- The engine-default value of each tracked state (blend off, cull off,
depth test off, depth write on, blend func (ONE, ZERO)). -/
def defaultVal : StateField → FieldVal
  | .blend => .b false
  | .blendFunc => .f .BLEND_ONE .BLEND_ZERO
  | .cullFace => .b false
  | .depthTest => .b false
  | .depthWrite => .b true

/-- The GL call `restore` issues to reset one state to its default. -/
def resetCall : StateField → GpuCall
  | .blend => .disableBlend
  | .blendFunc => .blendFunc .BLEND_ONE .BLEND_ZERO
  | .cullFace => .disableCullFace
  | .depthTest => .disableDepthTest
  | .depthWrite => .depthMask true

/-- The GL call `bindNoRestore` issues to change one state to a block's value. -/
def applyCall (sb : StateBlock) : StateField → GpuCall
  | .blend => if sb.blendEnabled then .enableBlend else .disableBlend
  | .blendFunc => .blendFunc sb.blendSrc sb.blendDst
  | .cullFace => if sb.cullFaceEnabled then .enableCullFace else .disableCullFace
  | .depthTest => if sb.depthTestEnabled then .enableDepthTest else .disableDepthTest
  | .depthWrite => .depthMask sb.depthWriteEnabled

/-- The order in which both `bindNoRestore` and `restore` examine the five
states. -/
def fieldOrder : List StateField :=
  [.blend, .blendFunc, .cullFace, .depthTest, .depthWrite]

/-- The comparison `bindNoRestore` makes for one state: does the block's
value differ from the singleton's cached value?  (Each case is the exact
comparison of the corresponding source if-block; `valDiffers_eq` proves
it agrees with comparing `fieldVal`s.) -/
def valDiffers (sb g : StateBlock) : StateField → Bool
  | .blend => sb.blendEnabled ≠ g.blendEnabled
  | .blendFunc => sb.blendSrc ≠ g.blendSrc ∨ sb.blendDst ≠ g.blendDst
  | .cullFace => sb.cullFaceEnabled ≠ g.cullFaceEnabled
  | .depthTest => sb.depthTestEnabled ≠ g.depthTestEnabled
  | .depthWrite => sb.depthWriteEnabled ≠ g.depthWriteEnabled

/-- One call to one of the six `StateBlock` setters, for stating properties
about arbitrary setter sequences. -/
inductive SetterOp where
  | opBlend (enabled : Bool)
  | opBlendSrc (blend : Blend)
  | opBlendDst (blend : Blend)
  | opCullFace (enabled : Bool)
  | opDepthTest (enabled : Bool)
  | opDepthWrite (enabled : Bool)
  deriving DecidableEq, Repr

/-- Apply one setter call to a block. -/
def applyOp (sb : StateBlock) : SetterOp → StateBlock
  | .opBlend e => sb.setBlend e
  | .opBlendSrc x => sb.setBlendSrc x
  | .opBlendDst x => sb.setBlendDst x
  | .opCullFace e => sb.setCullFace e
  | .opDepthTest e => sb.setDepthTest e
  | .opDepthWrite e => sb.setDepthWrite e

/-- Apply a sequence of setter calls, first element first. -/
def applyOps (sb : StateBlock) (ops : List SetterOp) : StateBlock :=
  ops.foldl applyOp sb

/-- A configuration error reported through `GP_ERROR` by the string-driven
state configuration path (non-fatal: execution continues). -/
inductive ConfigError where
  | unsupportedBlend (value : String)
  | unsupportedState (name : String)
  deriving DecidableEq, Repr

/-- `parseBoolean` (RenderState.cpp 492-506): a string parses to `true`
exactly when it has length 4 and its four characters are
case-insensitively `t`, `r`, `u`, `e`. -/
def parseBoolean (value : String) : Bool :=
  match value.data with
  | [c0, c1, c2, c3] =>
      c0.toLower = 't' && c1.toLower = 'r' && c2.toLower = 'u' && c3.toLower = 'e'
  | _ => false

/-- `parseBlend` (RenderState.cpp 508-538): uppercase the value and compare
against the closed vocabulary; an unrecognized value is reported and
defaults to `BLEND_ONE`. -/
def parseBlend (value : String) : Blend × List ConfigError :=
  let upper : List Char := value.data.map Char.toUpper
  if upper = "ZERO".data then (.BLEND_ZERO, [])
  else if upper = "ONE".data then (.BLEND_ONE, [])
  else if upper = "SRC_ALPHA".data then (.BLEND_SRC_ALPHA, [])
  else if upper = "ONE_MINUS_SRC_ALPHA".data then (.BLEND_ONE_MINUS_SRC_ALPHA, [])
  else if upper = "DST_ALPHA".data then (.BLEND_DST_ALPHA, [])
  else if upper = "ONE_MINUS_DST_ALPHA".data then (.BLEND_ONE_MINUS_DST_ALPHA, [])
  else if upper = "CONSTANT_ALPHA".data then (.BLEND_CONSTANT_ALPHA, [])
  else if upper = "ONE_MINUS_CONSTANT_ALPHA".data then (.BLEND_ONE_MINUS_CONSTANT_ALPHA, [])
  else if upper = "SRC_ALPHA_SATURATE".data then (.BLEND_SRC_ALPHA_SATURATE, [])
  else (.BLEND_ONE, [.unsupportedBlend value])

/-- `StateBlock::setState(name, value)` (RenderState.cpp 540-572): dispatch
on the (case-sensitive) state name; unrecognized names are reported and
ignored. -/
def StateBlock.setState (sb : StateBlock) (name value : String) : StateBlock × List ConfigError :=
  if name = "blend" then (sb.setBlend (parseBoolean value), [])
  else if name = "blendSrc" ∨ name = "srcBlend" then
    let p := parseBlend value
    (sb.setBlendSrc p.1, p.2)
  else if name = "blendDst" ∨ name = "dstBlend" then
    let p := parseBlend value
    (sb.setBlendDst p.1, p.2)
  else if name = "cullFace" then (sb.setCullFace (parseBoolean value), [])
  else if name = "depthTest" then (sb.setDepthTest (parseBoolean value), [])
  else if name = "depthWrite" then (sb.setDepthWrite (parseBoolean value), [])
  else (sb, [.unsupportedState name])

/-- The `RenderState::AutoBinding` enumeration (RenderState.h), in
declaration order. -/
inductive AutoBinding where
  | NONE
  | WORLD_MATRIX
  | VIEW_MATRIX
  | PROJECTION_MATRIX
  | WORLD_VIEW_MATRIX
  | VIEW_PROJECTION_MATRIX
  | WORLD_VIEW_PROJECTION_MATRIX
  | INVERSE_TRANSPOSE_WORLD_MATRIX
  | INVERSE_TRANSPOSE_WORLD_VIEW_MATRIX
  | CAMERA_WORLD_POSITION
  | CAMERA_VIEW_POSITION
  | MATRIX_PALETTE
  deriving DecidableEq, Repr

/-- `autoBindingToString` (RenderState.cpp 81-122).  NOTE: exactly as in the
source, there is no case for `WORLD_MATRIX`; it falls through to the
`default` branch, which returns the empty string.  `NONE` returns the
null pointer (`none`). -/
def autoBindingToString : AutoBinding → Option String
  | .NONE => none
  | .VIEW_MATRIX => some "VIEW_MATRIX"
  | .PROJECTION_MATRIX => some "PROJECTION_MATRIX"
  | .WORLD_VIEW_MATRIX => some "WORLD_VIEW_MATRIX"
  | .VIEW_PROJECTION_MATRIX => some "VIEW_PROJECTION_MATRIX"
  | .WORLD_VIEW_PROJECTION_MATRIX => some "WORLD_VIEW_PROJECTION_MATRIX"
  | .INVERSE_TRANSPOSE_WORLD_MATRIX => some "INVERSE_TRANSPOSE_WORLD_MATRIX"
  | .INVERSE_TRANSPOSE_WORLD_VIEW_MATRIX => some "INVERSE_TRANSPOSE_WORLD_VIEW_MATRIX"
  | .CAMERA_WORLD_POSITION => some "CAMERA_WORLD_POSITION"
  | .CAMERA_VIEW_POSITION => some "CAMERA_VIEW_POSITION"
  | .MATRIX_PALETTE => some "MATRIX_PALETTE"
  | _ => some ""

/-- A `MeshSkin` attached to a model; only its presence matters to the
auto-binding logic. -/
structure MeshSkin where
  skinId : Nat
  deriving DecidableEq, Repr

/-- A `Model` possibly carrying a skin (`model->getSkin()`). -/
structure Model where
  skin : Option MeshSkin
  deriving DecidableEq, Repr

/-- A scene `Node`.  `nodeId` models the C++ object identity (two distinct
node objects have distinct ids); `model` is `node->getModel()`. -/
structure Node where
  nodeId : Nat
  model : Option Model
  deriving DecidableEq, Repr

/-- The node accessor (pointer-to-member) a built-in auto binding passes to
`MaterialParameter::bindValue`. -/
inductive Accessor where
  | worldMatrix
  | viewMatrix
  | projectionMatrix
  | worldViewMatrix
  | viewProjectionMatrix
  | worldViewProjectionMatrix
  | inverseTransposeWorldMatrix
  | inverseTransposeWorldViewMatrix
  | cameraWorldPosition
  | cameraViewPosition
  deriving DecidableEq, Repr

/-- Outcome of one `RenderState::applyAutoBinding` call. -/
inductive ApplyOutcome where
  | custom (i : Nat)
  | builtin (accessor : Accessor)
  | paletteBound
  | paletteSkipped
  | warned
  deriving DecidableEq, Repr

/-- A registered custom auto-binding resolver
(`RenderState::ResolveAutoBindingCallback`): given the binding name, the
node and the target parameter's name, returns whether it handled the
binding. -/
def Resolver : Type := String → Node → String → Bool

/-- The linear scan over `_customAutoBindingResolvers` in
`applyAutoBinding` (RenderState.cpp 204-211): index of the first resolver
returning true, if any. -/
def consultResolvers (resolvers : List Resolver) (binding : String) (node : Node)
    (uniformName : String) : Option Nat :=
  match resolvers with
  | [] => none
  | r :: rest =>
      if r binding node uniformName then some 0
      else (consultResolvers rest binding node uniformName).map (· + 1)

/-- `RenderState::applyAutoBinding(uniformName, autoBinding)`
(RenderState.cpp 198-268), for a non-null node binding: custom resolvers
first (first `true` short-circuits), then the built-in `strcmp` chain,
with `MATRIX_PALETTE` silently skipped when the node has no skin and a
warning for unrecognized names. -/
def applyAutoBinding (resolvers : List Resolver) (nodeBinding : Node)
    (uniformName binding : String) : ApplyOutcome :=
  match consultResolvers resolvers binding nodeBinding uniformName with
  | some i => .custom i
  | none =>
    if binding = "WORLD_MATRIX" then .builtin .worldMatrix
    else if binding = "VIEW_MATRIX" then .builtin .viewMatrix
    else if binding = "PROJECTION_MATRIX" then .builtin .projectionMatrix
    else if binding = "WORLD_VIEW_MATRIX" then .builtin .worldViewMatrix
    else if binding = "VIEW_PROJECTION_MATRIX" then .builtin .viewProjectionMatrix
    else if binding = "WORLD_VIEW_PROJECTION_MATRIX" then .builtin .worldViewProjectionMatrix
    else if binding = "INVERSE_TRANSPOSE_WORLD_MATRIX" then .builtin .inverseTransposeWorldMatrix
    else if binding = "INVERSE_TRANSPOSE_WORLD_VIEW_MATRIX" then
      .builtin .inverseTransposeWorldViewMatrix
    else if binding = "CAMERA_WORLD_POSITION" then .builtin .cameraWorldPosition
    else if binding = "CAMERA_VIEW_POSITION" then .builtin .cameraViewPosition
    else if binding = "MATRIX_PALETTE" then
      match nodeBinding.model with
      | none => .paletteSkipped
      | some m =>
        match m.skin with
        | none => .paletteSkipped
        | some _ => .paletteBound
    else .warned

/-- The fixed built-in name table of `applyAutoBinding` (the ten
`strcmp`-matched names that bind a node accessor directly). -/
def builtinTable : List (String × Accessor) :=
  [("WORLD_MATRIX", .worldMatrix),
   ("VIEW_MATRIX", .viewMatrix),
   ("PROJECTION_MATRIX", .projectionMatrix),
   ("WORLD_VIEW_MATRIX", .worldViewMatrix),
   ("VIEW_PROJECTION_MATRIX", .viewProjectionMatrix),
   ("WORLD_VIEW_PROJECTION_MATRIX", .worldViewProjectionMatrix),
   ("INVERSE_TRANSPOSE_WORLD_MATRIX", .inverseTransposeWorldMatrix),
   ("INVERSE_TRANSPOSE_WORLD_VIEW_MATRIX", .inverseTransposeWorldViewMatrix),
   ("CAMERA_WORLD_POSITION", .cameraWorldPosition),
   ("CAMERA_VIEW_POSITION", .cameraViewPosition)]

/-- `std::map<std::string, std::string>::find` on the auto-binding map. -/
def mapFind (m : List (String × String)) (k : String) : Option String :=
  match m with
  | [] => none
  | (k', v) :: rest => if k' = k then some v else mapFind rest k

/-- `_autoBindings.erase(itr)` after a successful `find(name)`: remove the
entry with the given key (the map holds at most one). -/
def mapErase (m : List (String × String)) (k : String) : List (String × String) :=
  match m with
  | [] => []
  | (k', v) :: rest => if k' = k then rest else (k', v) :: mapErase rest k

/-- `_autoBindings[name] = autoBinding`: overwrite the entry with the given
key, or append a new one. -/
def mapInsert (m : List (String × String)) (k v : String) : List (String × String) :=
  match m with
  | [] => [(k, v)]
  | (k', v') :: rest =>
      if k' = k then (k', v) :: rest else (k', v') :: mapInsert rest k v

/-- The auto-binding-related mutable state of a `RenderState`: its
`_autoBindings` map and its `_nodeBinding` back-reference. -/
structure RSAuto where
  autoBindings : List (String × String)
  nodeBinding : Option Node
  deriving DecidableEq, Repr

/-- A record of one `applyAutoBinding` invocation: the uniform name, the
binding string passed (the null pointer as `none`), and the node binding
in effect. -/
abbrev ApplyEvent : Type := String × Option String × Node

/-- `RenderState::setParameterAutoBinding(name, const char* autoBinding)`
(RenderState.cpp 129-152): update (or, on null, remove from) the
auto-binding map; if a node binding is attached, invoke
`applyAutoBinding` immediately.  The returned list records the
`applyAutoBinding` invocations made. -/
def setParameterAutoBinding (rs : RSAuto) (name : String) (autoBinding : Option String) :
    RSAuto × List ApplyEvent :=
  let ab :=
    match autoBinding with
    | none => mapErase rs.autoBindings name
    | some b => mapInsert rs.autoBindings name b
  let rs := { rs with autoBindings := ab }
  match rs.nodeBinding with
  | some n => (rs, [(name, autoBinding, n)])
  | none => (rs, [])

/-- `RenderState::setParameterAutoBinding(name, AutoBinding autoBinding)`
(RenderState.cpp 124-127): convert the enum with `autoBindingToString`
and re-enter the string overload. -/
def setParameterAutoBindingEnum (rs : RSAuto) (name : String) (autoBinding : AutoBinding) :
    RSAuto × List ApplyEvent :=
  setParameterAutoBinding rs name (autoBindingToString autoBinding)

/-- `RenderState::setNodeBinding(node)` (RenderState.cpp 179-196): on
change, store the node and, when non-null, invoke `applyAutoBinding` for
every recorded auto-binding. -/
def setNodeBinding (rs : RSAuto) (node : Option Node) : RSAuto × List ApplyEvent :=
  if rs.nodeBinding = node then (rs, [])
  else
    let rs := { rs with nodeBinding := node }
    match node with
    | some n => (rs, rs.autoBindings.map (fun kv => (kv.1, some kv.2, n)))
    | none => (rs, [])

/-- A `RenderState` together with its parent chain.  The claims assume a
finite acyclic parent chain, which the inductive representation captures:
`root` has `_parent == NULL`, `child` carries its parent.  Each level
holds its `_parameters` (as the list of parameter names bound to the
pass's effect) and its optional `_state` block.  Since every level is a
strict subterm of its descendants, distinct chain positions are distinct
values, so structural equality coincides with C++ pointer comparison
along a chain. -/
inductive RenderState where
  | root (params : List String) (state : Option StateBlock)
  | child (params : List String) (state : Option StateBlock) (parent : RenderState)
  deriving DecidableEq, Repr

/-- The `_parameters` list of a level. -/
def RenderState.params : RenderState → List String
  | .root ps _ => ps
  | .child ps _ _ => ps

/-- The `_state` block of a level (`NULL` as `none`). -/
def RenderState.state : RenderState → Option StateBlock
  | .root _ st => st
  | .child _ st _ => st

/-- The `_parent` pointer of a level (`NULL` as `none`). -/
def RenderState.parent : RenderState → Option RenderState
  | .root _ _ => none
  | .child _ _ p => some p

/-- Depth of a level: number of ancestors above it. -/
def RenderState.depth : RenderState → Nat
  | .root _ _ => 0
  | .child _ _ p => p.depth + 1

/-- Climb `j` parent links (`anc rs 0 = rs`; saturates at the root, which is
never reached out of range in the proofs). -/
def RenderState.anc : RenderState → Nat → RenderState
  | rs, 0 => rs
  | .root ps st, _ + 1 => .root ps st
  | .child _ _ p, j + 1 => p.anc j

/-- `this->_state ? _state->_bits : 0` for one level. -/
def RenderState.ownBits (rs : RenderState) : Nat :=
  match rs.state with
  | none => 0
  | some sb => sb.bits

/-- The combined modified state bits of the hierarchy: this level's bits
OR-ed with every ancestor's (the first loop of `RenderState::bind`,
RenderState.cpp 274-284). -/
def RenderState.unionBits : RenderState → Nat
  | .root ps st => RenderState.ownBits (.root ps st)
  | .child ps st p => RenderState.ownBits (.child ps st p) ||| p.unionBits

/-- The inner loop of `RenderState::getTopmost` (RenderState.cpp 316-324):
ascend from `rs` until `_parent == below || _parent == NULL`. -/
def getTopmostAux : RenderState → Option RenderState → Option RenderState
  | .root ps st, _ => some (.root ps st)
  | .child ps st p, below =>
      if some p = below then some (.child ps st p)
      else getTopmostAux p below

/-- `RenderState::getTopmost(below)` (RenderState.cpp 307-327). -/
def RenderState.getTopmost (self : RenderState) (below : Option RenderState) :
    Option RenderState :=
  if some self = below then none
  else getTopmostAux self below

/-- The parent chain of a level, root ancestor first, the level itself
last. -/
def RenderState.chain : RenderState → List RenderState
  | .root ps st => [.root ps st]
  | .child ps st p => p.chain ++ [.child ps st p]

/-- The body of one iteration of the second loop of `RenderState::bind`
for one hierarchy level `rs`: `if (rs->_state) rs->_state->bindNoRestore()`
applied to the singleton `g` (the parameter-binding calls are added by the
callers `bindChain`/`bindLoop`). -/
def bindChainStep (rs : RenderState) (g : StateBlock) : StateBlock × List GpuCall :=
  match rs.state with
  | some sb => StateBlock.bindNoRestore sb g
  | none => (g, [])

/-- Top-down ("root first") processing of a list of hierarchy levels: for
each level, bind its parameters to the pass's effect, then
`bindNoRestore` its state block (the body of the second loop of
`RenderState::bind`, RenderState.cpp 292-304). -/
def bindChain : List RenderState → StateBlock → StateBlock × List GpuCall
  | [], g => (g, [])
  | rs :: rest, g =>
      ((bindChain rest (bindChainStep rs g).1).1,
        rs.params.map GpuCall.bindParam ++ (bindChainStep rs g).2 ++
          (bindChain rest (bindChainStep rs g).1).2)

/-- The second loop of `RenderState::bind` (RenderState.cpp 290-304):
`rs = NULL; while ((rs = getTopmost(rs))) { bind params; bindNoRestore }`.
`fuel` bounds the number of iterations; any fuel larger than the chain
length gives the loop's exact behavior (`RenderState.bind` passes
`depth + 2`). -/
def bindLoop : Nat → RenderState → Option RenderState → StateBlock → StateBlock × List GpuCall
  | 0, _, _, g => (g, [])
  | fuel + 1, self, below, g =>
      match self.getTopmost below with
      | none => (g, [])
      | some rs =>
          ((bindLoop fuel self (some rs) (bindChainStep rs g).1).1,
            rs.params.map GpuCall.bindParam ++ (bindChainStep rs g).2 ++
              (bindLoop fuel self (some rs) (bindChainStep rs g).1).2)

/-- `RenderState::bind(pass)` (RenderState.cpp 270-305): compute the
combined override bits of the hierarchy, `restore` once with them, then
walk the hierarchy top-down via `getTopmost`, binding parameters and
state at every level.  `g` is the singleton `_defaultState`. -/
def RenderState.bind (self : RenderState) (g : StateBlock) : StateBlock × List GpuCall :=
  let r := StateBlock.restore g self.unionBits
  let l := bindLoop (self.depth + 2) self none r.1
  (l.1, r.2 ++ l.2)

/-- The last `r` levels of the chain of `self` (`descChain self r =
[anc self (r-1), ..., anc self 1, anc self 0]`); `descChain self
(depth self + 1)` is the whole chain, root first. -/
def descChain (self : RenderState) : Nat → List RenderState
  | 0 => []
  | r + 1 => self.anc r :: descChain self r

/-- The state block of the lowest (most specific) level of `levels` whose
block has the override bit of `f` set, if any. -/
def lastSetBlock (f : StateField) (levels : List RenderState) : Option StateBlock :=
  ((levels.filterMap RenderState.state).filter
    (fun sb => decide (sb.bits &&& fieldBit f ≠ 0))).getLast?

/-! ### Bit-mask lemmas -/

theorem clearMask_testBit (x m i : Nat) :
    (clearMask x m).testBit i = (x.testBit i && !(m.testBit i)) := by
  simp only [clearMask, Nat.testBit_xor, Nat.testBit_land]
  cases x.testBit i <;> cases m.testBit i <;> rfl

theorem clearMask_land_self (x m : Nat) : clearMask x m &&& m = 0 := by
  apply Nat.eq_of_testBit_eq
  intro i
  simp only [Nat.testBit_land, clearMask_testBit, Nat.zero_testBit]
  cases x.testBit i <;> cases m.testBit i <;> rfl

theorem clearMask_land_disjoint (x : Nat) {m n : Nat} (h : m &&& n = 0) :
    clearMask x m &&& n = x &&& n := by
  apply Nat.eq_of_testBit_eq
  intro i
  have hmn : (m &&& n).testBit i = false := by rw [h]; exact Nat.zero_testBit i
  simp only [Nat.testBit_land, clearMask_testBit] at *
  cases hx : x.testBit i <;> cases hm : m.testBit i <;> cases hn : n.testBit i <;> simp_all

theorem lor_land_disjoint (x : Nat) {m n : Nat} (h : m &&& n = 0) :
    (x ||| m) &&& n = x &&& n := by
  apply Nat.eq_of_testBit_eq
  intro i
  have hmn : (m &&& n).testBit i = false := by rw [h]; exact Nat.zero_testBit i
  simp only [Nat.testBit_land, Nat.testBit_lor] at *
  cases hx : x.testBit i <;> cases hm : m.testBit i <;> cases hn : n.testBit i <;> simp_all

theorem lor_land_self (x m : Nat) : (x ||| m) &&& m = m := by
  apply Nat.eq_of_testBit_eq
  intro i
  simp only [Nat.testBit_land, Nat.testBit_lor]
  cases x.testBit i <;> cases m.testBit i <;> rfl

theorem land_lor_distrib (x y m : Nat) : (x ||| y) &&& m = (x &&& m) ||| (y &&& m) := by
  apply Nat.eq_of_testBit_eq
  intro i
  simp only [Nat.testBit_land, Nat.testBit_lor]
  cases x.testBit i <;> cases y.testBit i <;> cases m.testBit i <;> rfl

/-! ### Frame lemmas for the per-state step functions -/

theorem fieldVal_set_bits (f : StateField) (d : StateBlock) (x : Nat) :
    fieldVal f { d with bits := x } = fieldVal f d := by
  cases f <;> rfl

theorem restoreStep_snd (b m : Nat) (upd : StateBlock → StateBlock) (call : GpuCall)
    (s : StateBlock × List GpuCall) :
    (restoreStep b m upd call s).2 =
      s.2 ++ (if b &&& m = 0 ∧ s.1.bits &&& m ≠ 0 then [call] else []) := by
  unfold restoreStep
  split <;> simp

theorem restoreStep_proj {α : Type} (b m : Nat) (upd : StateBlock → StateBlock)
    (call : GpuCall) (s : StateBlock × List GpuCall) (p : StateBlock → α)
    (hupd : ∀ d : StateBlock, p (upd { d with bits := clearMask d.bits m }) = p d) :
    p (restoreStep b m upd call s).1 = p s.1 := by
  unfold restoreStep
  split <;> simp [hupd]

theorem restoreStep_proj_self {α : Type} (b m : Nat) (upd : StateBlock → StateBlock)
    (call : GpuCall) (s : StateBlock × List GpuCall) (p : StateBlock → α) (v : α)
    (hupd : ∀ d : StateBlock, p (upd { d with bits := clearMask d.bits m }) = v) :
    p (restoreStep b m upd call s).1 =
      if b &&& m = 0 ∧ s.1.bits &&& m ≠ 0 then v else p s.1 := by
  unfold restoreStep
  split <;> simp_all

theorem bindStep_snd (bits m : Nat) (differs : StateBlock → Bool)
    (upd : StateBlock → StateBlock) (call : GpuCall) (s : StateBlock × List GpuCall) :
    (bindStep bits m differs upd call s).2 =
      s.2 ++ (if bits &&& m ≠ 0 ∧ differs s.1 = true then [call] else []) := by
  unfold bindStep
  split <;> simp

theorem bindStep_proj {α : Type} (bits m : Nat) (differs : StateBlock → Bool)
    (upd : StateBlock → StateBlock) (call : GpuCall) (s : StateBlock × List GpuCall)
    (p : StateBlock → α) (hupd : ∀ d, p (upd d) = p d) :
    p (bindStep bits m differs upd call s).1 = p s.1 := by
  unfold bindStep
  split <;> simp [hupd]

theorem bindStep_proj_self {α : Type} (bits m : Nat) (differs : StateBlock → Bool)
    (upd : StateBlock → StateBlock) (call : GpuCall) (s : StateBlock × List GpuCall)
    (p : StateBlock → α) (v : α) (hupd : ∀ d, p (upd d) = v) :
    p (bindStep bits m differs upd call s).1 =
      if bits &&& m ≠ 0 ∧ differs s.1 = true then v else p s.1 := by
  unfold bindStep
  split <;> simp_all

/-! ### Characterization of `restore` -/

theorem restore_val (g : StateBlock) (b : Nat) (f : StateField) :
    fieldVal f (StateBlock.restore g b).1 =
      if b &&& fieldBit f = 0 ∧ g.bits &&& fieldBit f ≠ 0 then defaultVal f
      else fieldVal f g := by
  by_cases h0 : g.bits = 0
  · simp [StateBlock.restore, h0, Nat.zero_and]
  cases f
  · simp only [StateBlock.restore, if_neg h0, fieldBit, defaultVal]
    rw [restoreStep_proj _ _ _ _ _ (fieldVal .blend) (by intro d; rfl)]
    rw [restoreStep_proj _ _ _ _ _ (fieldVal .blend) (by intro d; rfl)]
    rw [restoreStep_proj _ _ _ _ _ (fieldVal .blend) (by intro d; rfl)]
    rw [restoreStep_proj _ _ _ _ _ (fieldVal .blend) (by intro d; rfl)]
    rw [restoreStep_proj_self _ _ _ _ _ (fieldVal .blend) (FieldVal.b false)
      (by intro d; rfl)]
  · simp only [StateBlock.restore, if_neg h0, fieldBit, defaultVal]
    rw [restoreStep_proj _ _ _ _ _ (fieldVal .blendFunc) (by intro d; rfl)]
    rw [restoreStep_proj _ _ _ _ _ (fieldVal .blendFunc) (by intro d; rfl)]
    rw [restoreStep_proj _ _ _ _ _ (fieldVal .blendFunc) (by intro d; rfl)]
    rw [restoreStep_proj_self _ _ _ _ _ (fieldVal .blendFunc)
      (FieldVal.f .BLEND_ONE .BLEND_ZERO) (by intro d; rfl)]
    rw [restoreStep_proj _ _ _ _ _ (fun d => d.bits &&& RS_BLEND_FUNC)
      (by intro d; exact clearMask_land_disjoint _ (by decide))]
    rw [restoreStep_proj _ _ _ _ _ (fieldVal .blendFunc) (by intro d; rfl)]
  · simp only [StateBlock.restore, if_neg h0, fieldBit, defaultVal]
    rw [restoreStep_proj _ _ _ _ _ (fieldVal .cullFace) (by intro d; rfl)]
    rw [restoreStep_proj _ _ _ _ _ (fieldVal .cullFace) (by intro d; rfl)]
    rw [restoreStep_proj_self _ _ _ _ _ (fieldVal .cullFace) (FieldVal.b false)
      (by intro d; rfl)]
    rw [restoreStep_proj _ _ _ _ _ (fun d => d.bits &&& RS_CULL_FACE)
      (by intro d; exact clearMask_land_disjoint _ (by decide))]
    rw [restoreStep_proj _ _ _ _ _ (fun d => d.bits &&& RS_CULL_FACE)
      (by intro d; exact clearMask_land_disjoint _ (by decide))]
    rw [restoreStep_proj _ _ _ _ _ (fieldVal .cullFace) (by intro d; rfl)]
    rw [restoreStep_proj _ _ _ _ _ (fieldVal .cullFace) (by intro d; rfl)]
  · simp only [StateBlock.restore, if_neg h0, fieldBit, defaultVal]
    rw [restoreStep_proj _ _ _ _ _ (fieldVal .depthTest) (by intro d; rfl)]
    rw [restoreStep_proj_self _ _ _ _ _ (fieldVal .depthTest) (FieldVal.b false)
      (by intro d; rfl)]
    rw [restoreStep_proj _ _ _ _ _ (fun d => d.bits &&& RS_DEPTH_TEST)
      (by intro d; exact clearMask_land_disjoint _ (by decide))]
    rw [restoreStep_proj _ _ _ _ _ (fun d => d.bits &&& RS_DEPTH_TEST)
      (by intro d; exact clearMask_land_disjoint _ (by decide))]
    rw [restoreStep_proj _ _ _ _ _ (fun d => d.bits &&& RS_DEPTH_TEST)
      (by intro d; exact clearMask_land_disjoint _ (by decide))]
    rw [restoreStep_proj _ _ _ _ _ (fieldVal .depthTest) (by intro d; rfl)]
    rw [restoreStep_proj _ _ _ _ _ (fieldVal .depthTest) (by intro d; rfl)]
    rw [restoreStep_proj _ _ _ _ _ (fieldVal .depthTest) (by intro d; rfl)]
  · simp only [StateBlock.restore, if_neg h0, fieldBit, defaultVal]
    rw [restoreStep_proj_self _ _ _ _ _ (fieldVal .depthWrite) (FieldVal.b true)
      (by intro d; rfl)]
    rw [restoreStep_proj _ _ _ _ _ (fun d => d.bits &&& RS_DEPTH_WRITE)
      (by intro d; exact clearMask_land_disjoint _ (by decide))]
    rw [restoreStep_proj _ _ _ _ _ (fun d => d.bits &&& RS_DEPTH_WRITE)
      (by intro d; exact clearMask_land_disjoint _ (by decide))]
    rw [restoreStep_proj _ _ _ _ _ (fun d => d.bits &&& RS_DEPTH_WRITE)
      (by intro d; exact clearMask_land_disjoint _ (by decide))]
    rw [restoreStep_proj _ _ _ _ _ (fun d => d.bits &&& RS_DEPTH_WRITE)
      (by intro d; exact clearMask_land_disjoint _ (by decide))]
    rw [restoreStep_proj _ _ _ _ _ (fieldVal .depthWrite) (by intro d; rfl)]
    rw [restoreStep_proj _ _ _ _ _ (fieldVal .depthWrite) (by intro d; rfl)]
    rw [restoreStep_proj _ _ _ _ _ (fieldVal .depthWrite) (by intro d; rfl)]
    rw [restoreStep_proj _ _ _ _ _ (fieldVal .depthWrite) (by intro d; rfl)]

theorem restore_bits (g : StateBlock) (b : Nat) (f : StateField) :
    (StateBlock.restore g b).1.bits &&& fieldBit f =
      if b &&& fieldBit f = 0 then 0 else g.bits &&& fieldBit f := by
  by_cases h0 : g.bits = 0
  · simp [StateBlock.restore, h0, Nat.zero_and]
  cases f
  · simp only [StateBlock.restore, if_neg h0, fieldBit]
    rw [restoreStep_proj _ _ _ _ _ (fun d => d.bits &&& RS_BLEND)
      (by intro d; exact clearMask_land_disjoint _ (by decide))]
    rw [restoreStep_proj _ _ _ _ _ (fun d => d.bits &&& RS_BLEND)
      (by intro d; exact clearMask_land_disjoint _ (by decide))]
    rw [restoreStep_proj _ _ _ _ _ (fun d => d.bits &&& RS_BLEND)
      (by intro d; exact clearMask_land_disjoint _ (by decide))]
    rw [restoreStep_proj _ _ _ _ _ (fun d => d.bits &&& RS_BLEND)
      (by intro d; exact clearMask_land_disjoint _ (by decide))]
    rw [restoreStep_proj_self _ _ _ _ _ (fun d => d.bits &&& RS_BLEND) 0
      (by intro d; exact clearMask_land_self _ _)]
    by_cases hb : b &&& RS_BLEND = 0 <;> by_cases hg : g.bits &&& RS_BLEND = 0 <;> simp_all
  · simp only [StateBlock.restore, if_neg h0, fieldBit]
    rw [restoreStep_proj _ _ _ _ _ (fun d => d.bits &&& RS_BLEND_FUNC)
      (by intro d; exact clearMask_land_disjoint _ (by decide))]
    rw [restoreStep_proj _ _ _ _ _ (fun d => d.bits &&& RS_BLEND_FUNC)
      (by intro d; exact clearMask_land_disjoint _ (by decide))]
    rw [restoreStep_proj _ _ _ _ _ (fun d => d.bits &&& RS_BLEND_FUNC)
      (by intro d; exact clearMask_land_disjoint _ (by decide))]
    rw [restoreStep_proj_self _ _ _ _ _ (fun d => d.bits &&& RS_BLEND_FUNC) 0
      (by intro d; exact clearMask_land_self _ _)]
    rw [restoreStep_proj _ _ _ _ _ (fun d => d.bits &&& RS_BLEND_FUNC)
      (by intro d; exact clearMask_land_disjoint _ (by decide))]
    by_cases hb : b &&& RS_BLEND_FUNC = 0 <;> by_cases hg : g.bits &&& RS_BLEND_FUNC = 0 <;>
      simp_all
  · simp only [StateBlock.restore, if_neg h0, fieldBit]
    rw [restoreStep_proj _ _ _ _ _ (fun d => d.bits &&& RS_CULL_FACE)
      (by intro d; exact clearMask_land_disjoint _ (by decide))]
    rw [restoreStep_proj _ _ _ _ _ (fun d => d.bits &&& RS_CULL_FACE)
      (by intro d; exact clearMask_land_disjoint _ (by decide))]
    rw [restoreStep_proj_self _ _ _ _ _ (fun d => d.bits &&& RS_CULL_FACE) 0
      (by intro d; exact clearMask_land_self _ _)]
    rw [restoreStep_proj _ _ _ _ _ (fun d => d.bits &&& RS_CULL_FACE)
      (by intro d; exact clearMask_land_disjoint _ (by decide))]
    rw [restoreStep_proj _ _ _ _ _ (fun d => d.bits &&& RS_CULL_FACE)
      (by intro d; exact clearMask_land_disjoint _ (by decide))]
    by_cases hb : b &&& RS_CULL_FACE = 0 <;> by_cases hg : g.bits &&& RS_CULL_FACE = 0 <;>
      simp_all
  · simp only [StateBlock.restore, if_neg h0, fieldBit]
    rw [restoreStep_proj _ _ _ _ _ (fun d => d.bits &&& RS_DEPTH_TEST)
      (by intro d; exact clearMask_land_disjoint _ (by decide))]
    rw [restoreStep_proj_self _ _ _ _ _ (fun d => d.bits &&& RS_DEPTH_TEST) 0
      (by intro d; exact clearMask_land_self _ _)]
    rw [restoreStep_proj _ _ _ _ _ (fun d => d.bits &&& RS_DEPTH_TEST)
      (by intro d; exact clearMask_land_disjoint _ (by decide))]
    rw [restoreStep_proj _ _ _ _ _ (fun d => d.bits &&& RS_DEPTH_TEST)
      (by intro d; exact clearMask_land_disjoint _ (by decide))]
    rw [restoreStep_proj _ _ _ _ _ (fun d => d.bits &&& RS_DEPTH_TEST)
      (by intro d; exact clearMask_land_disjoint _ (by decide))]
    by_cases hb : b &&& RS_DEPTH_TEST = 0 <;> by_cases hg : g.bits &&& RS_DEPTH_TEST = 0 <;>
      simp_all
  · simp only [StateBlock.restore, if_neg h0, fieldBit]
    rw [restoreStep_proj_self _ _ _ _ _ (fun d => d.bits &&& RS_DEPTH_WRITE) 0
      (by intro d; exact clearMask_land_self _ _)]
    rw [restoreStep_proj _ _ _ _ _ (fun d => d.bits &&& RS_DEPTH_WRITE)
      (by intro d; exact clearMask_land_disjoint _ (by decide))]
    rw [restoreStep_proj _ _ _ _ _ (fun d => d.bits &&& RS_DEPTH_WRITE)
      (by intro d; exact clearMask_land_disjoint _ (by decide))]
    rw [restoreStep_proj _ _ _ _ _ (fun d => d.bits &&& RS_DEPTH_WRITE)
      (by intro d; exact clearMask_land_disjoint _ (by decide))]
    rw [restoreStep_proj _ _ _ _ _ (fun d => d.bits &&& RS_DEPTH_WRITE)
      (by intro d; exact clearMask_land_disjoint _ (by decide))]
    by_cases hb : b &&& RS_DEPTH_WRITE = 0 <;> by_cases hg : g.bits &&& RS_DEPTH_WRITE = 0 <;>
      simp_all

theorem restore_calls (g : StateBlock) (b : Nat) :
    (StateBlock.restore g b).2 =
      (fieldOrder.filter fun f =>
        decide (b &&& fieldBit f = 0) && decide (g.bits &&& fieldBit f ≠ 0)).map resetCall := by
  by_cases h0 : g.bits = 0
  · simp [StateBlock.restore, h0, Nat.zero_and, fieldOrder]
  simp only [StateBlock.restore, if_neg h0]
  rw [restoreStep_snd, restoreStep_snd, restoreStep_snd, restoreStep_snd, restoreStep_snd]
  rw [restoreStep_proj _ _ _ _ _ (fun d => d.bits &&& RS_BLEND_FUNC)
    (by intro d; exact clearMask_land_disjoint _ (by decide))]
  rw [restoreStep_proj _ _ _ _ _ (fun d => d.bits &&& RS_CULL_FACE)
    (by intro d; exact clearMask_land_disjoint _ (by decide))]
  rw [restoreStep_proj _ _ _ _ _ (fun d => d.bits &&& RS_CULL_FACE)
    (by intro d; exact clearMask_land_disjoint _ (by decide))]
  rw [restoreStep_proj _ _ _ _ _ (fun d => d.bits &&& RS_DEPTH_TEST)
    (by intro d; exact clearMask_land_disjoint _ (by decide))]
  rw [restoreStep_proj _ _ _ _ _ (fun d => d.bits &&& RS_DEPTH_TEST)
    (by intro d; exact clearMask_land_disjoint _ (by decide))]
  rw [restoreStep_proj _ _ _ _ _ (fun d => d.bits &&& RS_DEPTH_TEST)
    (by intro d; exact clearMask_land_disjoint _ (by decide))]
  rw [restoreStep_proj _ _ _ _ _ (fun d => d.bits &&& RS_DEPTH_WRITE)
    (by intro d; exact clearMask_land_disjoint _ (by decide))]
  rw [restoreStep_proj _ _ _ _ _ (fun d => d.bits &&& RS_DEPTH_WRITE)
    (by intro d; exact clearMask_land_disjoint _ (by decide))]
  rw [restoreStep_proj _ _ _ _ _ (fun d => d.bits &&& RS_DEPTH_WRITE)
    (by intro d; exact clearMask_land_disjoint _ (by decide))]
  rw [restoreStep_proj _ _ _ _ _ (fun d => d.bits &&& RS_DEPTH_WRITE)
    (by intro d; exact clearMask_land_disjoint _ (by decide))]
  by_cases c1 : b &&& RS_BLEND = 0 ∧ g.bits &&& RS_BLEND ≠ 0 <;>
    by_cases c2 : b &&& RS_BLEND_FUNC = 0 ∧ g.bits &&& RS_BLEND_FUNC ≠ 0 <;>
    by_cases c3 : b &&& RS_CULL_FACE = 0 ∧ g.bits &&& RS_CULL_FACE ≠ 0 <;>
    by_cases c4 : b &&& RS_DEPTH_TEST = 0 ∧ g.bits &&& RS_DEPTH_TEST ≠ 0 <;>
    by_cases c5 : b &&& RS_DEPTH_WRITE = 0 ∧ g.bits &&& RS_DEPTH_WRITE ≠ 0 <;>
    simp [c1, c2, c3, c4, c5, fieldOrder, fieldBit, resetCall]

/-! ### Characterization of `bindNoRestore` -/

theorem valDiffers_eq (sb g : StateBlock) (f : StateField) :
    valDiffers sb g f = decide (fieldVal f sb ≠ fieldVal f g) := by
  cases f <;> simp [valDiffers, fieldVal, decide_eq_decide]

theorem bindNoRestore_bits (sb g : StateBlock) :
    (StateBlock.bindNoRestore sb g).1.bits = g.bits ||| sb.bits := by
  simp only [StateBlock.bindNoRestore]
  rw [bindStep_proj _ _ _ _ _ _ (fun d => d.bits) (by intro d; rfl)]
  rw [bindStep_proj _ _ _ _ _ _ (fun d => d.bits) (by intro d; rfl)]
  rw [bindStep_proj _ _ _ _ _ _ (fun d => d.bits) (by intro d; rfl)]
  rw [bindStep_proj _ _ _ _ _ _ (fun d => d.bits) (by intro d; rfl)]
  rw [bindStep_proj _ _ _ _ _ _ (fun d => d.bits) (by intro d; rfl)]

theorem bindNoRestore_val (sb g : StateBlock) (f : StateField) :
    fieldVal f (StateBlock.bindNoRestore sb g).1 =
      if sb.bits &&& fieldBit f ≠ 0 then fieldVal f sb else fieldVal f g := by
  cases f
  · simp only [StateBlock.bindNoRestore, fieldBit]
    rw [fieldVal_set_bits]
    rw [bindStep_proj _ _ _ _ _ _ (fieldVal .blend) (by intro d; rfl)]
    rw [bindStep_proj _ _ _ _ _ _ (fieldVal .blend) (by intro d; rfl)]
    rw [bindStep_proj _ _ _ _ _ _ (fieldVal .blend) (by intro d; rfl)]
    rw [bindStep_proj _ _ _ _ _ _ (fieldVal .blend) (by intro d; rfl)]
    rw [bindStep_proj_self _ _ _ _ _ _ (fieldVal .blend) (FieldVal.b sb.blendEnabled)
      (by intro d; rfl)]
    by_cases hbit : sb.bits &&& RS_BLEND = 0 <;>
      by_cases hv : sb.blendEnabled = g.blendEnabled <;>
      simp_all [fieldVal]
  · simp only [StateBlock.bindNoRestore, fieldBit]
    rw [fieldVal_set_bits]
    rw [bindStep_proj _ _ _ _ _ _ (fieldVal .blendFunc) (by intro d; rfl)]
    rw [bindStep_proj _ _ _ _ _ _ (fieldVal .blendFunc) (by intro d; rfl)]
    rw [bindStep_proj _ _ _ _ _ _ (fieldVal .blendFunc) (by intro d; rfl)]
    rw [bindStep_proj_self _ _ _ _ _ _ (fieldVal .blendFunc)
      (FieldVal.f sb.blendSrc sb.blendDst) (by intro d; rfl)]
    rw [bindStep_proj _ _ _ _ _ _ (fun d => d.blendSrc) (by intro d; rfl)]
    rw [bindStep_proj _ _ _ _ _ _ (fun d => d.blendDst) (by intro d; rfl)]
    rw [bindStep_proj _ _ _ _ _ _ (fieldVal .blendFunc) (by intro d; rfl)]
    by_cases hbit : sb.bits &&& RS_BLEND_FUNC = 0 <;>
      by_cases hs : sb.blendSrc = g.blendSrc <;>
      by_cases hd : sb.blendDst = g.blendDst <;>
      simp_all [fieldVal]
  · simp only [StateBlock.bindNoRestore, fieldBit]
    rw [fieldVal_set_bits]
    rw [bindStep_proj _ _ _ _ _ _ (fieldVal .cullFace) (by intro d; rfl)]
    rw [bindStep_proj _ _ _ _ _ _ (fieldVal .cullFace) (by intro d; rfl)]
    rw [bindStep_proj_self _ _ _ _ _ _ (fieldVal .cullFace) (FieldVal.b sb.cullFaceEnabled)
      (by intro d; rfl)]
    rw [bindStep_proj _ _ _ _ _ _ (fun d => d.cullFaceEnabled) (by intro d; rfl)]
    rw [bindStep_proj _ _ _ _ _ _ (fun d => d.cullFaceEnabled) (by intro d; rfl)]
    rw [bindStep_proj _ _ _ _ _ _ (fieldVal .cullFace) (by intro d; rfl)]
    rw [bindStep_proj _ _ _ _ _ _ (fieldVal .cullFace) (by intro d; rfl)]
    by_cases hbit : sb.bits &&& RS_CULL_FACE = 0 <;>
      by_cases hv : sb.cullFaceEnabled = g.cullFaceEnabled <;>
      simp_all [fieldVal]
  · simp only [StateBlock.bindNoRestore, fieldBit]
    rw [fieldVal_set_bits]
    rw [bindStep_proj _ _ _ _ _ _ (fieldVal .depthTest) (by intro d; rfl)]
    rw [bindStep_proj_self _ _ _ _ _ _ (fieldVal .depthTest) (FieldVal.b sb.depthTestEnabled)
      (by intro d; rfl)]
    rw [bindStep_proj _ _ _ _ _ _ (fun d => d.depthTestEnabled) (by intro d; rfl)]
    rw [bindStep_proj _ _ _ _ _ _ (fun d => d.depthTestEnabled) (by intro d; rfl)]
    rw [bindStep_proj _ _ _ _ _ _ (fun d => d.depthTestEnabled) (by intro d; rfl)]
    rw [bindStep_proj _ _ _ _ _ _ (fieldVal .depthTest) (by intro d; rfl)]
    rw [bindStep_proj _ _ _ _ _ _ (fieldVal .depthTest) (by intro d; rfl)]
    rw [bindStep_proj _ _ _ _ _ _ (fieldVal .depthTest) (by intro d; rfl)]
    by_cases hbit : sb.bits &&& RS_DEPTH_TEST = 0 <;>
      by_cases hv : sb.depthTestEnabled = g.depthTestEnabled <;>
      simp_all [fieldVal]
  · simp only [StateBlock.bindNoRestore, fieldBit]
    rw [fieldVal_set_bits]
    rw [bindStep_proj_self _ _ _ _ _ _ (fieldVal .depthWrite) (FieldVal.b sb.depthWriteEnabled)
      (by intro d; rfl)]
    rw [bindStep_proj _ _ _ _ _ _ (fun d => d.depthWriteEnabled) (by intro d; rfl)]
    rw [bindStep_proj _ _ _ _ _ _ (fun d => d.depthWriteEnabled) (by intro d; rfl)]
    rw [bindStep_proj _ _ _ _ _ _ (fun d => d.depthWriteEnabled) (by intro d; rfl)]
    rw [bindStep_proj _ _ _ _ _ _ (fun d => d.depthWriteEnabled) (by intro d; rfl)]
    rw [bindStep_proj _ _ _ _ _ _ (fieldVal .depthWrite) (by intro d; rfl)]
    rw [bindStep_proj _ _ _ _ _ _ (fieldVal .depthWrite) (by intro d; rfl)]
    rw [bindStep_proj _ _ _ _ _ _ (fieldVal .depthWrite) (by intro d; rfl)]
    rw [bindStep_proj _ _ _ _ _ _ (fieldVal .depthWrite) (by intro d; rfl)]
    by_cases hbit : sb.bits &&& RS_DEPTH_WRITE = 0 <;>
      by_cases hv : sb.depthWriteEnabled = g.depthWriteEnabled <;>
      simp_all [fieldVal]

theorem bindNoRestore_calls (sb g : StateBlock) :
    (StateBlock.bindNoRestore sb g).2 =
      (fieldOrder.filter fun f =>
        decide (sb.bits &&& fieldBit f ≠ 0) && valDiffers sb g f).map (applyCall sb) := by
  simp only [StateBlock.bindNoRestore]
  rw [bindStep_snd, bindStep_snd, bindStep_snd, bindStep_snd, bindStep_snd]
  rw [bindStep_proj _ _ _ _ _ _ (fun d => d.blendSrc) (by intro d; rfl)]
  rw [bindStep_proj _ _ _ _ _ _ (fun d => d.blendDst) (by intro d; rfl)]
  rw [bindStep_proj _ _ _ _ _ _ (fun d => d.cullFaceEnabled) (by intro d; rfl)]
  rw [bindStep_proj _ _ _ _ _ _ (fun d => d.cullFaceEnabled) (by intro d; rfl)]
  rw [bindStep_proj _ _ _ _ _ _ (fun d => d.depthTestEnabled) (by intro d; rfl)]
  rw [bindStep_proj _ _ _ _ _ _ (fun d => d.depthTestEnabled) (by intro d; rfl)]
  rw [bindStep_proj _ _ _ _ _ _ (fun d => d.depthTestEnabled) (by intro d; rfl)]
  rw [bindStep_proj _ _ _ _ _ _ (fun d => d.depthWriteEnabled) (by intro d; rfl)]
  rw [bindStep_proj _ _ _ _ _ _ (fun d => d.depthWriteEnabled) (by intro d; rfl)]
  rw [bindStep_proj _ _ _ _ _ _ (fun d => d.depthWriteEnabled) (by intro d; rfl)]
  rw [bindStep_proj _ _ _ _ _ _ (fun d => d.depthWriteEnabled) (by intro d; rfl)]
  by_cases c1 : sb.bits &&& RS_BLEND ≠ 0 ∧ sb.blendEnabled ≠ g.blendEnabled <;>
    by_cases c2 : sb.bits &&& RS_BLEND_FUNC ≠ 0 ∧
      (sb.blendSrc ≠ g.blendSrc ∨ sb.blendDst ≠ g.blendDst) <;>
    by_cases c3 : sb.bits &&& RS_CULL_FACE ≠ 0 ∧ sb.cullFaceEnabled ≠ g.cullFaceEnabled <;>
    by_cases c4 : sb.bits &&& RS_DEPTH_TEST ≠ 0 ∧ sb.depthTestEnabled ≠ g.depthTestEnabled <;>
    by_cases c5 : sb.bits &&& RS_DEPTH_WRITE ≠ 0 ∧ sb.depthWriteEnabled ≠ g.depthWriteEnabled <;>
    simp [c1, c2, c3, c4, c5, fieldOrder, fieldBit, valDiffers, applyCall]

theorem resetCall_inj (f f' : StateField) (h : resetCall f = resetCall f') : f = f' := by
  cases f <;> cases f' <;> simp_all [resetCall]

/-- Claim C2: `StateBlock::restore(b)` resets exactly those of the five
tracked states whose bit is set in the singleton's accumulated bits and
not set in `b` (issuing the GPU call resetting the state to its default
and clearing the bit and cached value in the singleton), and never
touches a state whose bit is present in `b`. -/
theorem C2_restore_resets_exactly_unclaimed (g : StateBlock) (b : Nat) :
    ((StateBlock.restore g b).2 =
      (fieldOrder.filter fun f =>
        decide (b &&& fieldBit f = 0) && decide (g.bits &&& fieldBit f ≠ 0)).map resetCall)
    ∧ (∀ f : StateField, g.bits &&& fieldBit f ≠ 0 → b &&& fieldBit f = 0 →
        fieldVal f (StateBlock.restore g b).1 = defaultVal f ∧
        (StateBlock.restore g b).1.bits &&& fieldBit f = 0 ∧
        resetCall f ∈ (StateBlock.restore g b).2)
    ∧ (∀ f : StateField, b &&& fieldBit f ≠ 0 →
        fieldVal f (StateBlock.restore g b).1 = fieldVal f g ∧
        (StateBlock.restore g b).1.bits &&& fieldBit f = g.bits &&& fieldBit f ∧
        resetCall f ∉ (StateBlock.restore g b).2) := by
  refine ⟨restore_calls g b, fun f hg hb => ⟨?_, ?_, ?_⟩, fun f hb => ⟨?_, ?_, ?_⟩⟩
  · rw [restore_val]
    simp [hb, hg]
  · rw [restore_bits]
    simp [hb]
  · rw [restore_calls]
    refine List.mem_map.mpr ⟨f, List.mem_filter.mpr ⟨?_, ?_⟩, rfl⟩
    · cases f <;> simp [fieldOrder]
    · simp [hb, hg]
  · rw [restore_val]
    simp [hb]
  · rw [restore_bits]
    simp [hb]
  · rw [restore_calls]
    intro hmem
    obtain ⟨f', hf', he⟩ := List.mem_map.mp hmem
    obtain ⟨-, hcond⟩ := List.mem_filter.mp hf'
    cases resetCall_inj f' f he
    simp [hb] at hcond

/-- Witness for C2 at a concrete singleton state: with blend and cull-face
marked changed and override bits claiming only cull face, blend is reset
to default and cull face is left untouched. -/
theorem C2_witness :
    fieldVal .blend
        (StateBlock.restore
          { cullFaceEnabled := true, depthTestEnabled := false, depthWriteEnabled := true,
            blendEnabled := true, blendSrc := .BLEND_SRC_ALPHA, blendDst := .BLEND_ZERO,
            bits := 5 } RS_CULL_FACE).1 = defaultVal .blend ∧
    fieldVal .cullFace
        (StateBlock.restore
          { cullFaceEnabled := true, depthTestEnabled := false, depthWriteEnabled := true,
            blendEnabled := true, blendSrc := .BLEND_SRC_ALPHA, blendDst := .BLEND_ZERO,
            bits := 5 } RS_CULL_FACE).1 =
      fieldVal .cullFace
        { cullFaceEnabled := true, depthTestEnabled := false, depthWriteEnabled := true,
          blendEnabled := true, blendSrc := .BLEND_SRC_ALPHA, blendDst := .BLEND_ZERO,
          bits := 5 } := by
  constructor
  · exact ((C2_restore_resets_exactly_unclaimed _ RS_CULL_FACE).2.1 .blend
      (by decide) (by decide)).1
  · exact ((C2_restore_resets_exactly_unclaimed _ RS_CULL_FACE).2.2 .cullFace (by decide)).1

/-- Claim C3: `bindNoRestore()` issues a GPU state-change call for a tracked
state exactly when the block's override bit is set and the block's value
differs from the singleton's cached value (updating the cached value in
that case), and afterwards the block's bits are unconditionally OR-ed
into the singleton's accumulated bits. -/
theorem C3_bindNoRestore_minimal_changes (sb g : StateBlock) :
    ((StateBlock.bindNoRestore sb g).2 =
      (fieldOrder.filter fun f =>
        decide (sb.bits &&& fieldBit f ≠ 0) && decide (fieldVal f sb ≠ fieldVal f g)).map
        (applyCall sb))
    ∧ (∀ f : StateField, fieldVal f (StateBlock.bindNoRestore sb g).1 =
        if sb.bits &&& fieldBit f ≠ 0 then fieldVal f sb else fieldVal f g)
    ∧ (StateBlock.bindNoRestore sb g).1.bits = g.bits ||| sb.bits := by
  refine ⟨?_, fun f => bindNoRestore_val sb g f, bindNoRestore_bits sb g⟩
  rw [bindNoRestore_calls]
  simp only [valDiffers_eq]

/-- Claim C5: `StateBlock::bind()` equals `restore(this->_bits)` followed by
`bindNoRestore()`, and a second `bind()` of the same block with no state
changes in between issues no GPU calls. -/
theorem C5_bind_then_rebind_silent (sb g : StateBlock) :
    (StateBlock.bind sb g =
      ((StateBlock.bindNoRestore sb (StateBlock.restore g sb.bits).1).1,
        (StateBlock.restore g sb.bits).2 ++
          (StateBlock.bindNoRestore sb (StateBlock.restore g sb.bits).1).2))
    ∧ (StateBlock.bind sb (StateBlock.bind sb g).1).2 = [] := by
  refine ⟨rfl, ?_⟩
  have hval1 : ∀ f, sb.bits &&& fieldBit f ≠ 0 →
      fieldVal f (StateBlock.bind sb g).1 = fieldVal f sb := by
    intro f hf
    show fieldVal f (StateBlock.bindNoRestore sb (StateBlock.restore g sb.bits).1).1 = _
    rw [bindNoRestore_val]
    simp [hf]
  have hbit1 : ∀ f, sb.bits &&& fieldBit f = 0 →
      (StateBlock.bind sb g).1.bits &&& fieldBit f = 0 := by
    intro f hf
    show (StateBlock.bindNoRestore sb (StateBlock.restore g sb.bits).1).1.bits &&&
      fieldBit f = 0
    rw [bindNoRestore_bits, land_lor_distrib, restore_bits]
    simp [hf]
  have hA : (StateBlock.restore (StateBlock.bind sb g).1 sb.bits).2 = [] := by
    rw [restore_calls]
    have hnil : ∀ f ∈ fieldOrder,
        ¬(decide (sb.bits &&& fieldBit f = 0) &&
          decide ((StateBlock.bind sb g).1.bits &&& fieldBit f ≠ 0)) = true := by
      intro f _
      by_cases hf : sb.bits &&& fieldBit f = 0
      · simp [hf, hbit1 f hf]
      · simp [hf]
    rw [List.filter_eq_nil_iff.mpr hnil]
    rfl
  have hB : (StateBlock.bindNoRestore sb
      (StateBlock.restore (StateBlock.bind sb g).1 sb.bits).1).2 = [] := by
    rw [bindNoRestore_calls]
    have hnil : ∀ f ∈ fieldOrder,
        ¬(decide (sb.bits &&& fieldBit f ≠ 0) &&
          valDiffers sb (StateBlock.restore (StateBlock.bind sb g).1 sb.bits).1 f) = true := by
      intro f _
      by_cases hf : sb.bits &&& fieldBit f = 0
      · simp [hf, valDiffers_eq]
      · have hv : fieldVal f (StateBlock.restore (StateBlock.bind sb g).1 sb.bits).1 =
            fieldVal f sb := by
          rw [restore_val]
          simp [hf, hval1 f hf]
        simp [valDiffers_eq, hv]
    rw [List.filter_eq_nil_iff.mpr hnil]
    rfl
  show (StateBlock.restore (StateBlock.bind sb g).1 sb.bits).2 ++
      (StateBlock.bindNoRestore sb
        (StateBlock.restore (StateBlock.bind sb g).1 sb.bits).1).2 = []
  rw [hA, hB]
  rfl

/-! ### The setter invariant (claim C4) -/

theorem clearMask_one_mod_two (x : Nat) : clearMask x 1 % 2 = 0 := by
  rw [← Nat.and_one_is_mod]
  exact clearMask_land_self x 1

theorem lor_one_mod_two (x : Nat) : (x ||| 1) % 2 = 1 := by
  rw [← Nat.and_one_is_mod]
  exact lor_land_self x 1

theorem setterOp_pres (sb : StateBlock) (op : SetterOp) (f : StateField)
    (hf : sb.bits &&& fieldBit f ≠ 0 ↔ fieldVal f sb ≠ defaultVal f) :
    (applyOp sb op).bits &&& fieldBit f ≠ 0 ↔
      fieldVal f (applyOp sb op) ≠ defaultVal f := by
  cases f
  · simp [fieldVal, fieldBit, defaultVal, RS_BLEND] at hf
    cases op with
    | opBlend a =>
      cases a <;> simp [StateBlock.setBlend,
        applyOp,
          fieldVal,
          fieldBit,
          defaultVal,
          RS_BLEND,
          RS_BLEND_FUNC,
          RS_CULL_FACE,
          RS_DEPTH_TEST,
          RS_DEPTH_WRITE,
          clearMask_land_self,
          lor_land_self,
          clearMask_one_mod_two,
          lor_one_mod_two,
          hf,
          clearMask_land_disjoint _ (show (1 : Nat) &&& 2 = 0 by decide),
          lor_land_disjoint _ (show (1 : Nat) &&& 2 = 0 by decide),
          clearMask_land_disjoint _ (show (1 : Nat) &&& 4 = 0 by decide),
          lor_land_disjoint _ (show (1 : Nat) &&& 4 = 0 by decide),
          clearMask_land_disjoint _ (show (1 : Nat) &&& 8 = 0 by decide),
          lor_land_disjoint _ (show (1 : Nat) &&& 8 = 0 by decide),
          clearMask_land_disjoint _ (show (1 : Nat) &&& 16 = 0 by decide),
          lor_land_disjoint _ (show (1 : Nat) &&& 16 = 0 by decide)]
    | opBlendSrc a =>
      by_cases hc : a = Blend.BLEND_ONE ∧ sb.blendDst = Blend.BLEND_ZERO <;>
        simp [StateBlock.setBlendSrc, hc,
        applyOp,
          fieldVal,
          fieldBit,
          defaultVal,
          RS_BLEND,
          RS_BLEND_FUNC,
          RS_CULL_FACE,
          RS_DEPTH_TEST,
          RS_DEPTH_WRITE,
          clearMask_land_self,
          lor_land_self,
          clearMask_one_mod_two,
          lor_one_mod_two,
          hf,
          clearMask_land_disjoint _ (show (2 : Nat) &&& 1 = 0 by decide),
          lor_land_disjoint _ (show (2 : Nat) &&& 1 = 0 by decide),
          clearMask_land_disjoint _ (show (2 : Nat) &&& 4 = 0 by decide),
          lor_land_disjoint _ (show (2 : Nat) &&& 4 = 0 by decide),
          clearMask_land_disjoint _ (show (2 : Nat) &&& 8 = 0 by decide),
          lor_land_disjoint _ (show (2 : Nat) &&& 8 = 0 by decide),
          clearMask_land_disjoint _ (show (2 : Nat) &&& 16 = 0 by decide),
          lor_land_disjoint _ (show (2 : Nat) &&& 16 = 0 by decide)]
    | opBlendDst a =>
      by_cases hc : sb.blendSrc = Blend.BLEND_ONE ∧ a = Blend.BLEND_ZERO <;>
        simp [StateBlock.setBlendDst, hc,
        applyOp,
          fieldVal,
          fieldBit,
          defaultVal,
          RS_BLEND,
          RS_BLEND_FUNC,
          RS_CULL_FACE,
          RS_DEPTH_TEST,
          RS_DEPTH_WRITE,
          clearMask_land_self,
          lor_land_self,
          clearMask_one_mod_two,
          lor_one_mod_two,
          hf,
          clearMask_land_disjoint _ (show (2 : Nat) &&& 1 = 0 by decide),
          lor_land_disjoint _ (show (2 : Nat) &&& 1 = 0 by decide),
          clearMask_land_disjoint _ (show (2 : Nat) &&& 4 = 0 by decide),
          lor_land_disjoint _ (show (2 : Nat) &&& 4 = 0 by decide),
          clearMask_land_disjoint _ (show (2 : Nat) &&& 8 = 0 by decide),
          lor_land_disjoint _ (show (2 : Nat) &&& 8 = 0 by decide),
          clearMask_land_disjoint _ (show (2 : Nat) &&& 16 = 0 by decide),
          lor_land_disjoint _ (show (2 : Nat) &&& 16 = 0 by decide)]
    | opCullFace a =>
      cases a <;> simp [StateBlock.setCullFace,
        applyOp,
          fieldVal,
          fieldBit,
          defaultVal,
          RS_BLEND,
          RS_BLEND_FUNC,
          RS_CULL_FACE,
          RS_DEPTH_TEST,
          RS_DEPTH_WRITE,
          clearMask_land_self,
          lor_land_self,
          clearMask_one_mod_two,
          lor_one_mod_two,
          hf,
          clearMask_land_disjoint _ (show (4 : Nat) &&& 1 = 0 by decide),
          lor_land_disjoint _ (show (4 : Nat) &&& 1 = 0 by decide),
          clearMask_land_disjoint _ (show (4 : Nat) &&& 2 = 0 by decide),
          lor_land_disjoint _ (show (4 : Nat) &&& 2 = 0 by decide),
          clearMask_land_disjoint _ (show (4 : Nat) &&& 8 = 0 by decide),
          lor_land_disjoint _ (show (4 : Nat) &&& 8 = 0 by decide),
          clearMask_land_disjoint _ (show (4 : Nat) &&& 16 = 0 by decide),
          lor_land_disjoint _ (show (4 : Nat) &&& 16 = 0 by decide)]
    | opDepthTest a =>
      cases a <;> simp [StateBlock.setDepthTest,
        applyOp,
          fieldVal,
          fieldBit,
          defaultVal,
          RS_BLEND,
          RS_BLEND_FUNC,
          RS_CULL_FACE,
          RS_DEPTH_TEST,
          RS_DEPTH_WRITE,
          clearMask_land_self,
          lor_land_self,
          clearMask_one_mod_two,
          lor_one_mod_two,
          hf,
          clearMask_land_disjoint _ (show (8 : Nat) &&& 1 = 0 by decide),
          lor_land_disjoint _ (show (8 : Nat) &&& 1 = 0 by decide),
          clearMask_land_disjoint _ (show (8 : Nat) &&& 2 = 0 by decide),
          lor_land_disjoint _ (show (8 : Nat) &&& 2 = 0 by decide),
          clearMask_land_disjoint _ (show (8 : Nat) &&& 4 = 0 by decide),
          lor_land_disjoint _ (show (8 : Nat) &&& 4 = 0 by decide),
          clearMask_land_disjoint _ (show (8 : Nat) &&& 16 = 0 by decide),
          lor_land_disjoint _ (show (8 : Nat) &&& 16 = 0 by decide)]
    | opDepthWrite a =>
      cases a <;> simp [StateBlock.setDepthWrite,
        applyOp,
          fieldVal,
          fieldBit,
          defaultVal,
          RS_BLEND,
          RS_BLEND_FUNC,
          RS_CULL_FACE,
          RS_DEPTH_TEST,
          RS_DEPTH_WRITE,
          clearMask_land_self,
          lor_land_self,
          clearMask_one_mod_two,
          lor_one_mod_two,
          hf,
          clearMask_land_disjoint _ (show (16 : Nat) &&& 1 = 0 by decide),
          lor_land_disjoint _ (show (16 : Nat) &&& 1 = 0 by decide),
          clearMask_land_disjoint _ (show (16 : Nat) &&& 2 = 0 by decide),
          lor_land_disjoint _ (show (16 : Nat) &&& 2 = 0 by decide),
          clearMask_land_disjoint _ (show (16 : Nat) &&& 4 = 0 by decide),
          lor_land_disjoint _ (show (16 : Nat) &&& 4 = 0 by decide),
          clearMask_land_disjoint _ (show (16 : Nat) &&& 8 = 0 by decide),
          lor_land_disjoint _ (show (16 : Nat) &&& 8 = 0 by decide)]
  · simp [fieldVal, fieldBit, defaultVal, RS_BLEND_FUNC] at hf
    cases op with
    | opBlend a =>
      cases a <;> simp [StateBlock.setBlend,
        applyOp,
          fieldVal,
          fieldBit,
          defaultVal,
          RS_BLEND,
          RS_BLEND_FUNC,
          RS_CULL_FACE,
          RS_DEPTH_TEST,
          RS_DEPTH_WRITE,
          clearMask_land_self,
          lor_land_self,
          clearMask_one_mod_two,
          lor_one_mod_two,
          hf,
          clearMask_land_disjoint _ (show (1 : Nat) &&& 2 = 0 by decide),
          lor_land_disjoint _ (show (1 : Nat) &&& 2 = 0 by decide),
          clearMask_land_disjoint _ (show (1 : Nat) &&& 4 = 0 by decide),
          lor_land_disjoint _ (show (1 : Nat) &&& 4 = 0 by decide),
          clearMask_land_disjoint _ (show (1 : Nat) &&& 8 = 0 by decide),
          lor_land_disjoint _ (show (1 : Nat) &&& 8 = 0 by decide),
          clearMask_land_disjoint _ (show (1 : Nat) &&& 16 = 0 by decide),
          lor_land_disjoint _ (show (1 : Nat) &&& 16 = 0 by decide)]
    | opBlendSrc a =>
      by_cases hc : a = Blend.BLEND_ONE ∧ sb.blendDst = Blend.BLEND_ZERO <;>
        simp [StateBlock.setBlendSrc, hc,
        applyOp,
          fieldVal,
          fieldBit,
          defaultVal,
          RS_BLEND,
          RS_BLEND_FUNC,
          RS_CULL_FACE,
          RS_DEPTH_TEST,
          RS_DEPTH_WRITE,
          clearMask_land_self,
          lor_land_self,
          clearMask_one_mod_two,
          lor_one_mod_two,
          hf,
          clearMask_land_disjoint _ (show (2 : Nat) &&& 1 = 0 by decide),
          lor_land_disjoint _ (show (2 : Nat) &&& 1 = 0 by decide),
          clearMask_land_disjoint _ (show (2 : Nat) &&& 4 = 0 by decide),
          lor_land_disjoint _ (show (2 : Nat) &&& 4 = 0 by decide),
          clearMask_land_disjoint _ (show (2 : Nat) &&& 8 = 0 by decide),
          lor_land_disjoint _ (show (2 : Nat) &&& 8 = 0 by decide),
          clearMask_land_disjoint _ (show (2 : Nat) &&& 16 = 0 by decide),
          lor_land_disjoint _ (show (2 : Nat) &&& 16 = 0 by decide)]
    | opBlendDst a =>
      by_cases hc : sb.blendSrc = Blend.BLEND_ONE ∧ a = Blend.BLEND_ZERO <;>
        simp [StateBlock.setBlendDst, hc,
        applyOp,
          fieldVal,
          fieldBit,
          defaultVal,
          RS_BLEND,
          RS_BLEND_FUNC,
          RS_CULL_FACE,
          RS_DEPTH_TEST,
          RS_DEPTH_WRITE,
          clearMask_land_self,
          lor_land_self,
          clearMask_one_mod_two,
          lor_one_mod_two,
          hf,
          clearMask_land_disjoint _ (show (2 : Nat) &&& 1 = 0 by decide),
          lor_land_disjoint _ (show (2 : Nat) &&& 1 = 0 by decide),
          clearMask_land_disjoint _ (show (2 : Nat) &&& 4 = 0 by decide),
          lor_land_disjoint _ (show (2 : Nat) &&& 4 = 0 by decide),
          clearMask_land_disjoint _ (show (2 : Nat) &&& 8 = 0 by decide),
          lor_land_disjoint _ (show (2 : Nat) &&& 8 = 0 by decide),
          clearMask_land_disjoint _ (show (2 : Nat) &&& 16 = 0 by decide),
          lor_land_disjoint _ (show (2 : Nat) &&& 16 = 0 by decide)]
    | opCullFace a =>
      cases a <;> simp [StateBlock.setCullFace,
        applyOp,
          fieldVal,
          fieldBit,
          defaultVal,
          RS_BLEND,
          RS_BLEND_FUNC,
          RS_CULL_FACE,
          RS_DEPTH_TEST,
          RS_DEPTH_WRITE,
          clearMask_land_self,
          lor_land_self,
          clearMask_one_mod_two,
          lor_one_mod_two,
          hf,
          clearMask_land_disjoint _ (show (4 : Nat) &&& 1 = 0 by decide),
          lor_land_disjoint _ (show (4 : Nat) &&& 1 = 0 by decide),
          clearMask_land_disjoint _ (show (4 : Nat) &&& 2 = 0 by decide),
          lor_land_disjoint _ (show (4 : Nat) &&& 2 = 0 by decide),
          clearMask_land_disjoint _ (show (4 : Nat) &&& 8 = 0 by decide),
          lor_land_disjoint _ (show (4 : Nat) &&& 8 = 0 by decide),
          clearMask_land_disjoint _ (show (4 : Nat) &&& 16 = 0 by decide),
          lor_land_disjoint _ (show (4 : Nat) &&& 16 = 0 by decide)]
    | opDepthTest a =>
      cases a <;> simp [StateBlock.setDepthTest,
        applyOp,
          fieldVal,
          fieldBit,
          defaultVal,
          RS_BLEND,
          RS_BLEND_FUNC,
          RS_CULL_FACE,
          RS_DEPTH_TEST,
          RS_DEPTH_WRITE,
          clearMask_land_self,
          lor_land_self,
          clearMask_one_mod_two,
          lor_one_mod_two,
          hf,
          clearMask_land_disjoint _ (show (8 : Nat) &&& 1 = 0 by decide),
          lor_land_disjoint _ (show (8 : Nat) &&& 1 = 0 by decide),
          clearMask_land_disjoint _ (show (8 : Nat) &&& 2 = 0 by decide),
          lor_land_disjoint _ (show (8 : Nat) &&& 2 = 0 by decide),
          clearMask_land_disjoint _ (show (8 : Nat) &&& 4 = 0 by decide),
          lor_land_disjoint _ (show (8 : Nat) &&& 4 = 0 by decide),
          clearMask_land_disjoint _ (show (8 : Nat) &&& 16 = 0 by decide),
          lor_land_disjoint _ (show (8 : Nat) &&& 16 = 0 by decide)]
    | opDepthWrite a =>
      cases a <;> simp [StateBlock.setDepthWrite,
        applyOp,
          fieldVal,
          fieldBit,
          defaultVal,
          RS_BLEND,
          RS_BLEND_FUNC,
          RS_CULL_FACE,
          RS_DEPTH_TEST,
          RS_DEPTH_WRITE,
          clearMask_land_self,
          lor_land_self,
          clearMask_one_mod_two,
          lor_one_mod_two,
          hf,
          clearMask_land_disjoint _ (show (16 : Nat) &&& 1 = 0 by decide),
          lor_land_disjoint _ (show (16 : Nat) &&& 1 = 0 by decide),
          clearMask_land_disjoint _ (show (16 : Nat) &&& 2 = 0 by decide),
          lor_land_disjoint _ (show (16 : Nat) &&& 2 = 0 by decide),
          clearMask_land_disjoint _ (show (16 : Nat) &&& 4 = 0 by decide),
          lor_land_disjoint _ (show (16 : Nat) &&& 4 = 0 by decide),
          clearMask_land_disjoint _ (show (16 : Nat) &&& 8 = 0 by decide),
          lor_land_disjoint _ (show (16 : Nat) &&& 8 = 0 by decide)]
  · simp [fieldVal, fieldBit, defaultVal, RS_CULL_FACE] at hf
    cases op with
    | opBlend a =>
      cases a <;> simp [StateBlock.setBlend,
        applyOp,
          fieldVal,
          fieldBit,
          defaultVal,
          RS_BLEND,
          RS_BLEND_FUNC,
          RS_CULL_FACE,
          RS_DEPTH_TEST,
          RS_DEPTH_WRITE,
          clearMask_land_self,
          lor_land_self,
          clearMask_one_mod_two,
          lor_one_mod_two,
          hf,
          clearMask_land_disjoint _ (show (1 : Nat) &&& 2 = 0 by decide),
          lor_land_disjoint _ (show (1 : Nat) &&& 2 = 0 by decide),
          clearMask_land_disjoint _ (show (1 : Nat) &&& 4 = 0 by decide),
          lor_land_disjoint _ (show (1 : Nat) &&& 4 = 0 by decide),
          clearMask_land_disjoint _ (show (1 : Nat) &&& 8 = 0 by decide),
          lor_land_disjoint _ (show (1 : Nat) &&& 8 = 0 by decide),
          clearMask_land_disjoint _ (show (1 : Nat) &&& 16 = 0 by decide),
          lor_land_disjoint _ (show (1 : Nat) &&& 16 = 0 by decide)]
    | opBlendSrc a =>
      by_cases hc : a = Blend.BLEND_ONE ∧ sb.blendDst = Blend.BLEND_ZERO <;>
        simp [StateBlock.setBlendSrc, hc,
        applyOp,
          fieldVal,
          fieldBit,
          defaultVal,
          RS_BLEND,
          RS_BLEND_FUNC,
          RS_CULL_FACE,
          RS_DEPTH_TEST,
          RS_DEPTH_WRITE,
          clearMask_land_self,
          lor_land_self,
          clearMask_one_mod_two,
          lor_one_mod_two,
          hf,
          clearMask_land_disjoint _ (show (2 : Nat) &&& 1 = 0 by decide),
          lor_land_disjoint _ (show (2 : Nat) &&& 1 = 0 by decide),
          clearMask_land_disjoint _ (show (2 : Nat) &&& 4 = 0 by decide),
          lor_land_disjoint _ (show (2 : Nat) &&& 4 = 0 by decide),
          clearMask_land_disjoint _ (show (2 : Nat) &&& 8 = 0 by decide),
          lor_land_disjoint _ (show (2 : Nat) &&& 8 = 0 by decide),
          clearMask_land_disjoint _ (show (2 : Nat) &&& 16 = 0 by decide),
          lor_land_disjoint _ (show (2 : Nat) &&& 16 = 0 by decide)]
    | opBlendDst a =>
      by_cases hc : sb.blendSrc = Blend.BLEND_ONE ∧ a = Blend.BLEND_ZERO <;>
        simp [StateBlock.setBlendDst, hc,
        applyOp,
          fieldVal,
          fieldBit,
          defaultVal,
          RS_BLEND,
          RS_BLEND_FUNC,
          RS_CULL_FACE,
          RS_DEPTH_TEST,
          RS_DEPTH_WRITE,
          clearMask_land_self,
          lor_land_self,
          clearMask_one_mod_two,
          lor_one_mod_two,
          hf,
          clearMask_land_disjoint _ (show (2 : Nat) &&& 1 = 0 by decide),
          lor_land_disjoint _ (show (2 : Nat) &&& 1 = 0 by decide),
          clearMask_land_disjoint _ (show (2 : Nat) &&& 4 = 0 by decide),
          lor_land_disjoint _ (show (2 : Nat) &&& 4 = 0 by decide),
          clearMask_land_disjoint _ (show (2 : Nat) &&& 8 = 0 by decide),
          lor_land_disjoint _ (show (2 : Nat) &&& 8 = 0 by decide),
          clearMask_land_disjoint _ (show (2 : Nat) &&& 16 = 0 by decide),
          lor_land_disjoint _ (show (2 : Nat) &&& 16 = 0 by decide)]
    | opCullFace a =>
      cases a <;> simp [StateBlock.setCullFace,
        applyOp,
          fieldVal,
          fieldBit,
          defaultVal,
          RS_BLEND,
          RS_BLEND_FUNC,
          RS_CULL_FACE,
          RS_DEPTH_TEST,
          RS_DEPTH_WRITE,
          clearMask_land_self,
          lor_land_self,
          clearMask_one_mod_two,
          lor_one_mod_two,
          hf,
          clearMask_land_disjoint _ (show (4 : Nat) &&& 1 = 0 by decide),
          lor_land_disjoint _ (show (4 : Nat) &&& 1 = 0 by decide),
          clearMask_land_disjoint _ (show (4 : Nat) &&& 2 = 0 by decide),
          lor_land_disjoint _ (show (4 : Nat) &&& 2 = 0 by decide),
          clearMask_land_disjoint _ (show (4 : Nat) &&& 8 = 0 by decide),
          lor_land_disjoint _ (show (4 : Nat) &&& 8 = 0 by decide),
          clearMask_land_disjoint _ (show (4 : Nat) &&& 16 = 0 by decide),
          lor_land_disjoint _ (show (4 : Nat) &&& 16 = 0 by decide)]
    | opDepthTest a =>
      cases a <;> simp [StateBlock.setDepthTest,
        applyOp,
          fieldVal,
          fieldBit,
          defaultVal,
          RS_BLEND,
          RS_BLEND_FUNC,
          RS_CULL_FACE,
          RS_DEPTH_TEST,
          RS_DEPTH_WRITE,
          clearMask_land_self,
          lor_land_self,
          clearMask_one_mod_two,
          lor_one_mod_two,
          hf,
          clearMask_land_disjoint _ (show (8 : Nat) &&& 1 = 0 by decide),
          lor_land_disjoint _ (show (8 : Nat) &&& 1 = 0 by decide),
          clearMask_land_disjoint _ (show (8 : Nat) &&& 2 = 0 by decide),
          lor_land_disjoint _ (show (8 : Nat) &&& 2 = 0 by decide),
          clearMask_land_disjoint _ (show (8 : Nat) &&& 4 = 0 by decide),
          lor_land_disjoint _ (show (8 : Nat) &&& 4 = 0 by decide),
          clearMask_land_disjoint _ (show (8 : Nat) &&& 16 = 0 by decide),
          lor_land_disjoint _ (show (8 : Nat) &&& 16 = 0 by decide)]
    | opDepthWrite a =>
      cases a <;> simp [StateBlock.setDepthWrite,
        applyOp,
          fieldVal,
          fieldBit,
          defaultVal,
          RS_BLEND,
          RS_BLEND_FUNC,
          RS_CULL_FACE,
          RS_DEPTH_TEST,
          RS_DEPTH_WRITE,
          clearMask_land_self,
          lor_land_self,
          clearMask_one_mod_two,
          lor_one_mod_two,
          hf,
          clearMask_land_disjoint _ (show (16 : Nat) &&& 1 = 0 by decide),
          lor_land_disjoint _ (show (16 : Nat) &&& 1 = 0 by decide),
          clearMask_land_disjoint _ (show (16 : Nat) &&& 2 = 0 by decide),
          lor_land_disjoint _ (show (16 : Nat) &&& 2 = 0 by decide),
          clearMask_land_disjoint _ (show (16 : Nat) &&& 4 = 0 by decide),
          lor_land_disjoint _ (show (16 : Nat) &&& 4 = 0 by decide),
          clearMask_land_disjoint _ (show (16 : Nat) &&& 8 = 0 by decide),
          lor_land_disjoint _ (show (16 : Nat) &&& 8 = 0 by decide)]
  · simp [fieldVal, fieldBit, defaultVal, RS_DEPTH_TEST] at hf
    cases op with
    | opBlend a =>
      cases a <;> simp [StateBlock.setBlend,
        applyOp,
          fieldVal,
          fieldBit,
          defaultVal,
          RS_BLEND,
          RS_BLEND_FUNC,
          RS_CULL_FACE,
          RS_DEPTH_TEST,
          RS_DEPTH_WRITE,
          clearMask_land_self,
          lor_land_self,
          clearMask_one_mod_two,
          lor_one_mod_two,
          hf,
          clearMask_land_disjoint _ (show (1 : Nat) &&& 2 = 0 by decide),
          lor_land_disjoint _ (show (1 : Nat) &&& 2 = 0 by decide),
          clearMask_land_disjoint _ (show (1 : Nat) &&& 4 = 0 by decide),
          lor_land_disjoint _ (show (1 : Nat) &&& 4 = 0 by decide),
          clearMask_land_disjoint _ (show (1 : Nat) &&& 8 = 0 by decide),
          lor_land_disjoint _ (show (1 : Nat) &&& 8 = 0 by decide),
          clearMask_land_disjoint _ (show (1 : Nat) &&& 16 = 0 by decide),
          lor_land_disjoint _ (show (1 : Nat) &&& 16 = 0 by decide)]
    | opBlendSrc a =>
      by_cases hc : a = Blend.BLEND_ONE ∧ sb.blendDst = Blend.BLEND_ZERO <;>
        simp [StateBlock.setBlendSrc, hc,
        applyOp,
          fieldVal,
          fieldBit,
          defaultVal,
          RS_BLEND,
          RS_BLEND_FUNC,
          RS_CULL_FACE,
          RS_DEPTH_TEST,
          RS_DEPTH_WRITE,
          clearMask_land_self,
          lor_land_self,
          clearMask_one_mod_two,
          lor_one_mod_two,
          hf,
          clearMask_land_disjoint _ (show (2 : Nat) &&& 1 = 0 by decide),
          lor_land_disjoint _ (show (2 : Nat) &&& 1 = 0 by decide),
          clearMask_land_disjoint _ (show (2 : Nat) &&& 4 = 0 by decide),
          lor_land_disjoint _ (show (2 : Nat) &&& 4 = 0 by decide),
          clearMask_land_disjoint _ (show (2 : Nat) &&& 8 = 0 by decide),
          lor_land_disjoint _ (show (2 : Nat) &&& 8 = 0 by decide),
          clearMask_land_disjoint _ (show (2 : Nat) &&& 16 = 0 by decide),
          lor_land_disjoint _ (show (2 : Nat) &&& 16 = 0 by decide)]
    | opBlendDst a =>
      by_cases hc : sb.blendSrc = Blend.BLEND_ONE ∧ a = Blend.BLEND_ZERO <;>
        simp [StateBlock.setBlendDst, hc,
        applyOp,
          fieldVal,
          fieldBit,
          defaultVal,
          RS_BLEND,
          RS_BLEND_FUNC,
          RS_CULL_FACE,
          RS_DEPTH_TEST,
          RS_DEPTH_WRITE,
          clearMask_land_self,
          lor_land_self,
          clearMask_one_mod_two,
          lor_one_mod_two,
          hf,
          clearMask_land_disjoint _ (show (2 : Nat) &&& 1 = 0 by decide),
          lor_land_disjoint _ (show (2 : Nat) &&& 1 = 0 by decide),
          clearMask_land_disjoint _ (show (2 : Nat) &&& 4 = 0 by decide),
          lor_land_disjoint _ (show (2 : Nat) &&& 4 = 0 by decide),
          clearMask_land_disjoint _ (show (2 : Nat) &&& 8 = 0 by decide),
          lor_land_disjoint _ (show (2 : Nat) &&& 8 = 0 by decide),
          clearMask_land_disjoint _ (show (2 : Nat) &&& 16 = 0 by decide),
          lor_land_disjoint _ (show (2 : Nat) &&& 16 = 0 by decide)]
    | opCullFace a =>
      cases a <;> simp [StateBlock.setCullFace,
        applyOp,
          fieldVal,
          fieldBit,
          defaultVal,
          RS_BLEND,
          RS_BLEND_FUNC,
          RS_CULL_FACE,
          RS_DEPTH_TEST,
          RS_DEPTH_WRITE,
          clearMask_land_self,
          lor_land_self,
          clearMask_one_mod_two,
          lor_one_mod_two,
          hf,
          clearMask_land_disjoint _ (show (4 : Nat) &&& 1 = 0 by decide),
          lor_land_disjoint _ (show (4 : Nat) &&& 1 = 0 by decide),
          clearMask_land_disjoint _ (show (4 : Nat) &&& 2 = 0 by decide),
          lor_land_disjoint _ (show (4 : Nat) &&& 2 = 0 by decide),
          clearMask_land_disjoint _ (show (4 : Nat) &&& 8 = 0 by decide),
          lor_land_disjoint _ (show (4 : Nat) &&& 8 = 0 by decide),
          clearMask_land_disjoint _ (show (4 : Nat) &&& 16 = 0 by decide),
          lor_land_disjoint _ (show (4 : Nat) &&& 16 = 0 by decide)]
    | opDepthTest a =>
      cases a <;> simp [StateBlock.setDepthTest,
        applyOp,
          fieldVal,
          fieldBit,
          defaultVal,
          RS_BLEND,
          RS_BLEND_FUNC,
          RS_CULL_FACE,
          RS_DEPTH_TEST,
          RS_DEPTH_WRITE,
          clearMask_land_self,
          lor_land_self,
          clearMask_one_mod_two,
          lor_one_mod_two,
          hf,
          clearMask_land_disjoint _ (show (8 : Nat) &&& 1 = 0 by decide),
          lor_land_disjoint _ (show (8 : Nat) &&& 1 = 0 by decide),
          clearMask_land_disjoint _ (show (8 : Nat) &&& 2 = 0 by decide),
          lor_land_disjoint _ (show (8 : Nat) &&& 2 = 0 by decide),
          clearMask_land_disjoint _ (show (8 : Nat) &&& 4 = 0 by decide),
          lor_land_disjoint _ (show (8 : Nat) &&& 4 = 0 by decide),
          clearMask_land_disjoint _ (show (8 : Nat) &&& 16 = 0 by decide),
          lor_land_disjoint _ (show (8 : Nat) &&& 16 = 0 by decide)]
    | opDepthWrite a =>
      cases a <;> simp [StateBlock.setDepthWrite,
        applyOp,
          fieldVal,
          fieldBit,
          defaultVal,
          RS_BLEND,
          RS_BLEND_FUNC,
          RS_CULL_FACE,
          RS_DEPTH_TEST,
          RS_DEPTH_WRITE,
          clearMask_land_self,
          lor_land_self,
          clearMask_one_mod_two,
          lor_one_mod_two,
          hf,
          clearMask_land_disjoint _ (show (16 : Nat) &&& 1 = 0 by decide),
          lor_land_disjoint _ (show (16 : Nat) &&& 1 = 0 by decide),
          clearMask_land_disjoint _ (show (16 : Nat) &&& 2 = 0 by decide),
          lor_land_disjoint _ (show (16 : Nat) &&& 2 = 0 by decide),
          clearMask_land_disjoint _ (show (16 : Nat) &&& 4 = 0 by decide),
          lor_land_disjoint _ (show (16 : Nat) &&& 4 = 0 by decide),
          clearMask_land_disjoint _ (show (16 : Nat) &&& 8 = 0 by decide),
          lor_land_disjoint _ (show (16 : Nat) &&& 8 = 0 by decide)]
  · simp [fieldVal, fieldBit, defaultVal, RS_DEPTH_WRITE] at hf
    cases op with
    | opBlend a =>
      cases a <;> simp [StateBlock.setBlend,
        applyOp,
          fieldVal,
          fieldBit,
          defaultVal,
          RS_BLEND,
          RS_BLEND_FUNC,
          RS_CULL_FACE,
          RS_DEPTH_TEST,
          RS_DEPTH_WRITE,
          clearMask_land_self,
          lor_land_self,
          clearMask_one_mod_two,
          lor_one_mod_two,
          hf,
          clearMask_land_disjoint _ (show (1 : Nat) &&& 2 = 0 by decide),
          lor_land_disjoint _ (show (1 : Nat) &&& 2 = 0 by decide),
          clearMask_land_disjoint _ (show (1 : Nat) &&& 4 = 0 by decide),
          lor_land_disjoint _ (show (1 : Nat) &&& 4 = 0 by decide),
          clearMask_land_disjoint _ (show (1 : Nat) &&& 8 = 0 by decide),
          lor_land_disjoint _ (show (1 : Nat) &&& 8 = 0 by decide),
          clearMask_land_disjoint _ (show (1 : Nat) &&& 16 = 0 by decide),
          lor_land_disjoint _ (show (1 : Nat) &&& 16 = 0 by decide)]
    | opBlendSrc a =>
      by_cases hc : a = Blend.BLEND_ONE ∧ sb.blendDst = Blend.BLEND_ZERO <;>
        simp [StateBlock.setBlendSrc, hc,
        applyOp,
          fieldVal,
          fieldBit,
          defaultVal,
          RS_BLEND,
          RS_BLEND_FUNC,
          RS_CULL_FACE,
          RS_DEPTH_TEST,
          RS_DEPTH_WRITE,
          clearMask_land_self,
          lor_land_self,
          clearMask_one_mod_two,
          lor_one_mod_two,
          hf,
          clearMask_land_disjoint _ (show (2 : Nat) &&& 1 = 0 by decide),
          lor_land_disjoint _ (show (2 : Nat) &&& 1 = 0 by decide),
          clearMask_land_disjoint _ (show (2 : Nat) &&& 4 = 0 by decide),
          lor_land_disjoint _ (show (2 : Nat) &&& 4 = 0 by decide),
          clearMask_land_disjoint _ (show (2 : Nat) &&& 8 = 0 by decide),
          lor_land_disjoint _ (show (2 : Nat) &&& 8 = 0 by decide),
          clearMask_land_disjoint _ (show (2 : Nat) &&& 16 = 0 by decide),
          lor_land_disjoint _ (show (2 : Nat) &&& 16 = 0 by decide)]
    | opBlendDst a =>
      by_cases hc : sb.blendSrc = Blend.BLEND_ONE ∧ a = Blend.BLEND_ZERO <;>
        simp [StateBlock.setBlendDst, hc,
        applyOp,
          fieldVal,
          fieldBit,
          defaultVal,
          RS_BLEND,
          RS_BLEND_FUNC,
          RS_CULL_FACE,
          RS_DEPTH_TEST,
          RS_DEPTH_WRITE,
          clearMask_land_self,
          lor_land_self,
          clearMask_one_mod_two,
          lor_one_mod_two,
          hf,
          clearMask_land_disjoint _ (show (2 : Nat) &&& 1 = 0 by decide),
          lor_land_disjoint _ (show (2 : Nat) &&& 1 = 0 by decide),
          clearMask_land_disjoint _ (show (2 : Nat) &&& 4 = 0 by decide),
          lor_land_disjoint _ (show (2 : Nat) &&& 4 = 0 by decide),
          clearMask_land_disjoint _ (show (2 : Nat) &&& 8 = 0 by decide),
          lor_land_disjoint _ (show (2 : Nat) &&& 8 = 0 by decide),
          clearMask_land_disjoint _ (show (2 : Nat) &&& 16 = 0 by decide),
          lor_land_disjoint _ (show (2 : Nat) &&& 16 = 0 by decide)]
    | opCullFace a =>
      cases a <;> simp [StateBlock.setCullFace,
        applyOp,
          fieldVal,
          fieldBit,
          defaultVal,
          RS_BLEND,
          RS_BLEND_FUNC,
          RS_CULL_FACE,
          RS_DEPTH_TEST,
          RS_DEPTH_WRITE,
          clearMask_land_self,
          lor_land_self,
          clearMask_one_mod_two,
          lor_one_mod_two,
          hf,
          clearMask_land_disjoint _ (show (4 : Nat) &&& 1 = 0 by decide),
          lor_land_disjoint _ (show (4 : Nat) &&& 1 = 0 by decide),
          clearMask_land_disjoint _ (show (4 : Nat) &&& 2 = 0 by decide),
          lor_land_disjoint _ (show (4 : Nat) &&& 2 = 0 by decide),
          clearMask_land_disjoint _ (show (4 : Nat) &&& 8 = 0 by decide),
          lor_land_disjoint _ (show (4 : Nat) &&& 8 = 0 by decide),
          clearMask_land_disjoint _ (show (4 : Nat) &&& 16 = 0 by decide),
          lor_land_disjoint _ (show (4 : Nat) &&& 16 = 0 by decide)]
    | opDepthTest a =>
      cases a <;> simp [StateBlock.setDepthTest,
        applyOp,
          fieldVal,
          fieldBit,
          defaultVal,
          RS_BLEND,
          RS_BLEND_FUNC,
          RS_CULL_FACE,
          RS_DEPTH_TEST,
          RS_DEPTH_WRITE,
          clearMask_land_self,
          lor_land_self,
          clearMask_one_mod_two,
          lor_one_mod_two,
          hf,
          clearMask_land_disjoint _ (show (8 : Nat) &&& 1 = 0 by decide),
          lor_land_disjoint _ (show (8 : Nat) &&& 1 = 0 by decide),
          clearMask_land_disjoint _ (show (8 : Nat) &&& 2 = 0 by decide),
          lor_land_disjoint _ (show (8 : Nat) &&& 2 = 0 by decide),
          clearMask_land_disjoint _ (show (8 : Nat) &&& 4 = 0 by decide),
          lor_land_disjoint _ (show (8 : Nat) &&& 4 = 0 by decide),
          clearMask_land_disjoint _ (show (8 : Nat) &&& 16 = 0 by decide),
          lor_land_disjoint _ (show (8 : Nat) &&& 16 = 0 by decide)]
    | opDepthWrite a =>
      cases a <;> simp [StateBlock.setDepthWrite,
        applyOp,
          fieldVal,
          fieldBit,
          defaultVal,
          RS_BLEND,
          RS_BLEND_FUNC,
          RS_CULL_FACE,
          RS_DEPTH_TEST,
          RS_DEPTH_WRITE,
          clearMask_land_self,
          lor_land_self,
          clearMask_one_mod_two,
          lor_one_mod_two,
          hf,
          clearMask_land_disjoint _ (show (16 : Nat) &&& 1 = 0 by decide),
          lor_land_disjoint _ (show (16 : Nat) &&& 1 = 0 by decide),
          clearMask_land_disjoint _ (show (16 : Nat) &&& 2 = 0 by decide),
          lor_land_disjoint _ (show (16 : Nat) &&& 2 = 0 by decide),
          clearMask_land_disjoint _ (show (16 : Nat) &&& 4 = 0 by decide),
          lor_land_disjoint _ (show (16 : Nat) &&& 4 = 0 by decide),
          clearMask_land_disjoint _ (show (16 : Nat) &&& 8 = 0 by decide),
          lor_land_disjoint _ (show (16 : Nat) &&& 8 = 0 by decide)]

theorem applyOps_pres (ops : List SetterOp) (sb : StateBlock) (f : StateField)
    (hf : sb.bits &&& fieldBit f ≠ 0 ↔ fieldVal f sb ≠ defaultVal f) :
    (applyOps sb ops).bits &&& fieldBit f ≠ 0 ↔
      fieldVal f (applyOps sb ops) ≠ defaultVal f := by
  induction ops generalizing sb with
  | nil => exact hf
  | cons op rest ih => exact ih (applyOp sb op) (setterOp_pres sb op f hf)

theorem setDepthWrite_iff (sb : StateBlock) (e : Bool) :
    (sb.setDepthWrite e).bits &&& fieldBit .depthWrite ≠ 0 ↔
      fieldVal .depthWrite (sb.setDepthWrite e) ≠ defaultVal .depthWrite := by
  cases e <;>
    simp [StateBlock.setDepthWrite, fieldVal, fieldBit, defaultVal, RS_DEPTH_WRITE,
      clearMask_land_self, lor_land_self]

/-- Counterexample to claim C4 as stated: a freshly constructed `StateBlock`
(`applyOps StateBlock.init []`, i.e. the empty setter sequence) holds
`depthWriteEnabled = false`, which differs from the claimed default
"depth write on", yet its `RS_DEPTH_WRITE` override bit is clear — the
constructor initializes `_depthWriteEnabled(false)` with `_bits(0)`. -/
theorem C4_counterexample_fresh_depthWrite :
    ¬((applyOps StateBlock.init []).bits &&& fieldBit .depthWrite ≠ 0 ↔
      fieldVal .depthWrite (applyOps StateBlock.init []) ≠ defaultVal .depthWrite) := by
  decide

/-- Claim C4 (amended): after any setter sequence applied to a freshly
constructed block, the override bit of each of blend, blend-func,
cull-face and depth-test is set exactly when the field holds a
non-default value; for depth write the same equivalence holds provided
the sequence contains at least one `setDepthWrite` call (a fresh block
already holds the non-default `depthWriteEnabled = false` with the bit
clear). -/
theorem C4_bits_iff_nondefault (ops : List SetterOp) (f : StateField) :
    (f ≠ .depthWrite →
      ((applyOps StateBlock.init ops).bits &&& fieldBit f ≠ 0 ↔
        fieldVal f (applyOps StateBlock.init ops) ≠ defaultVal f))
    ∧ ((∃ e, SetterOp.opDepthWrite e ∈ ops) →
      ((applyOps StateBlock.init ops).bits &&& fieldBit .depthWrite ≠ 0 ↔
        fieldVal .depthWrite (applyOps StateBlock.init ops) ≠ defaultVal .depthWrite)) := by
  constructor
  · intro hne
    refine applyOps_pres ops StateBlock.init f ?_
    cases f
    · decide
    · decide
    · decide
    · decide
    · exact absurd rfl hne
  · rintro ⟨e, he⟩
    obtain ⟨l1, l2, rfl⟩ := List.append_of_mem he
    have hsplit : applyOps StateBlock.init (l1 ++ SetterOp.opDepthWrite e :: l2) =
        applyOps (applyOp (applyOps StateBlock.init l1) (SetterOp.opDepthWrite e)) l2 := by
      simp [applyOps, List.foldl_append]
    rw [hsplit]
    exact applyOps_pres l2 _ .depthWrite
      (setDepthWrite_iff (applyOps StateBlock.init l1) e)

/-- Witness for the amended claim C4: a sequence that enables blending and
disables depth writing yields blocks whose bits reflect exactly the
non-default fields. -/
theorem C4_witness :
    ((applyOps StateBlock.init [SetterOp.opBlend true]).bits &&& fieldBit .blend ≠ 0 ↔
      fieldVal .blend (applyOps StateBlock.init [SetterOp.opBlend true]) ≠
        defaultVal .blend) ∧
    ((applyOps StateBlock.init [SetterOp.opDepthWrite false]).bits &&&
        fieldBit .depthWrite ≠ 0 ↔
      fieldVal .depthWrite (applyOps StateBlock.init [SetterOp.opDepthWrite false]) ≠
        defaultVal .depthWrite) := by
  constructor
  · exact (C4_bits_iff_nondefault [SetterOp.opBlend true] .blend).1 (by decide)
  · exact (C4_bits_iff_nondefault [SetterOp.opDepthWrite false] .depthWrite).2
      ⟨false, by decide⟩

/-! ### String-driven configuration (claim C9) -/

theorem parseBoolean_iff (value : String) :
    parseBoolean value = true ↔ value.data.map Char.toLower = "true".data := by
  unfold parseBoolean
  rcases hd : value.data with _ | ⟨c0, _ | ⟨c1, _ | ⟨c2, _ | ⟨c3, _ | ⟨c4, rest⟩⟩⟩⟩⟩ <;>
    simp [hd, and_assoc]

/-- Claim C9: `setState(name, value)` recognizes exactly the case-sensitive
names `blend`, `blendSrc`/`srcBlend`, `blendDst`/`dstBlend`, `cullFace`,
`depthTest`, `depthWrite`, dispatching each to its setter; booleans parse
case-insensitively as the literal `"true"`; blend factors parse
case-insensitively from the closed vocabulary, an unrecognized value
being reported and defaulting to `BLEND_ONE`; an unrecognized state name
is reported and the block is left unchanged. -/
theorem C9_setState_vocabulary (sb : StateBlock) (name value : String) :
    (name = "blend" →
      StateBlock.setState sb name value = (sb.setBlend (parseBoolean value), []))
    ∧ ((name = "blendSrc" ∨ name = "srcBlend") →
      StateBlock.setState sb name value =
        (sb.setBlendSrc (parseBlend value).1, (parseBlend value).2))
    ∧ ((name = "blendDst" ∨ name = "dstBlend") →
      StateBlock.setState sb name value =
        (sb.setBlendDst (parseBlend value).1, (parseBlend value).2))
    ∧ (name = "cullFace" →
      StateBlock.setState sb name value = (sb.setCullFace (parseBoolean value), []))
    ∧ (name = "depthTest" →
      StateBlock.setState sb name value = (sb.setDepthTest (parseBoolean value), []))
    ∧ (name = "depthWrite" →
      StateBlock.setState sb name value = (sb.setDepthWrite (parseBoolean value), []))
    ∧ (name ∉ ["blend", "blendSrc", "srcBlend", "blendDst", "dstBlend", "cullFace",
        "depthTest", "depthWrite"] →
      StateBlock.setState sb name value = (sb, [ConfigError.unsupportedState name]))
    ∧ (parseBoolean value = true ↔ value.data.map Char.toLower = "true".data)
    ∧ (value.data.map Char.toUpper = "ZERO".data → parseBlend value = (.BLEND_ZERO, []))
    ∧ (value.data.map Char.toUpper = "ONE".data → parseBlend value = (.BLEND_ONE, []))
    ∧ (value.data.map Char.toUpper = "SRC_ALPHA".data →
        parseBlend value = (.BLEND_SRC_ALPHA, []))
    ∧ (value.data.map Char.toUpper = "ONE_MINUS_SRC_ALPHA".data →
        parseBlend value = (.BLEND_ONE_MINUS_SRC_ALPHA, []))
    ∧ (value.data.map Char.toUpper = "DST_ALPHA".data →
        parseBlend value = (.BLEND_DST_ALPHA, []))
    ∧ (value.data.map Char.toUpper = "ONE_MINUS_DST_ALPHA".data →
        parseBlend value = (.BLEND_ONE_MINUS_DST_ALPHA, []))
    ∧ (value.data.map Char.toUpper = "CONSTANT_ALPHA".data →
        parseBlend value = (.BLEND_CONSTANT_ALPHA, []))
    ∧ (value.data.map Char.toUpper = "ONE_MINUS_CONSTANT_ALPHA".data →
        parseBlend value = (.BLEND_ONE_MINUS_CONSTANT_ALPHA, []))
    ∧ (value.data.map Char.toUpper = "SRC_ALPHA_SATURATE".data →
        parseBlend value = (.BLEND_SRC_ALPHA_SATURATE, []))
    ∧ (value.data.map Char.toUpper ∉ ["ZERO".data, "ONE".data, "SRC_ALPHA".data,
        "ONE_MINUS_SRC_ALPHA".data, "DST_ALPHA".data, "ONE_MINUS_DST_ALPHA".data,
        "CONSTANT_ALPHA".data, "ONE_MINUS_CONSTANT_ALPHA".data,
        "SRC_ALPHA_SATURATE".data] →
      parseBlend value = (.BLEND_ONE, [ConfigError.unsupportedBlend value])) := by
  refine ⟨?_, ?_, ?_, ?_, ?_, ?_, ?_, parseBoolean_iff value,
    ?_, ?_, ?_, ?_, ?_, ?_, ?_, ?_, ?_, ?_⟩
  · intro h
    subst h
    simp [StateBlock.setState]
  · rintro (h | h) <;> subst h <;> simp [StateBlock.setState]
  · rintro (h | h) <;> subst h <;> simp [StateBlock.setState]
  · intro h
    subst h
    simp [StateBlock.setState]
  · intro h
    subst h
    simp [StateBlock.setState]
  · intro h
    subst h
    simp [StateBlock.setState]
  · intro h
    simp only [List.mem_cons, List.mem_singleton, List.not_mem_nil] at h
    push_neg at h
    obtain ⟨h1, h2, h3, h4, h5, h6, h7, h8⟩ := h
    simp [StateBlock.setState, h1, h2, h3, h4, h5, h6, h7, h8]
  · intro h
    simp [parseBlend, h]
  · intro h
    simp [parseBlend, h]
  · intro h
    simp [parseBlend, h]
  · intro h
    simp [parseBlend, h]
  · intro h
    simp [parseBlend, h]
  · intro h
    simp [parseBlend, h]
  · intro h
    simp [parseBlend, h]
  · intro h
    simp [parseBlend, h]
  · intro h
    simp [parseBlend, h]
  · intro h
    simp only [List.mem_cons, List.mem_singleton, List.not_mem_nil] at h
    push_neg at h
    obtain ⟨h1, h2, h3, h4, h5, h6, h7, h8, h9⟩ := h
    simp [parseBlend, h1, h2, h3, h4, h5, h6, h7, h8, h9]

/-- Witness for C9: concrete dispatches: `cullFace`/`TRUE` enables cull
face, an unknown state name is reported and ignored, and an unknown
blend value is reported and parses as `BLEND_ONE`. -/
theorem C9_witness :
    StateBlock.setState StateBlock.init "cullFace" "TRUE" =
      (StateBlock.init.setCullFace true, []) ∧
    StateBlock.setState StateBlock.init "bogus" "x" =
      (StateBlock.init, [ConfigError.unsupportedState "bogus"]) ∧
    parseBlend "src_alpha" = (.BLEND_SRC_ALPHA, []) ∧
    parseBlend "nonsense" = (.BLEND_ONE, [ConfigError.unsupportedBlend "nonsense"]) := by
  refine ⟨?_, ?_, ?_, ?_⟩
  · have h := (C9_setState_vocabulary StateBlock.init "cullFace" "TRUE").2.2.2.1 rfl
    rw [h]
    decide
  · exact (C9_setState_vocabulary StateBlock.init "bogus" "x").2.2.2.2.2.2.1 (by decide)
  · exact (C9_setState_vocabulary StateBlock.init "blendSrc"
      "src_alpha").2.2.2.2.2.2.2.2.2.2.1 (by decide)
  · exact (C9_setState_vocabulary StateBlock.init "blendSrc"
      "nonsense").2.2.2.2.2.2.2.2.2.2.2.2.2.2.2.2.2 (by decide)

/-! ### Auto-binding resolution (claims C6, C7, C8, C10) -/

theorem consultResolvers_none (binding : String) (node : Node) (uniformName : String) :
    ∀ resolvers : List Resolver,
      (∀ r ∈ resolvers, r binding node uniformName = false) →
      consultResolvers resolvers binding node uniformName = none := by
  intro resolvers
  induction resolvers with
  | nil => intro _; rfl
  | cons hd tl ih =>
    intro h
    unfold consultResolvers
    rw [h hd (List.mem_cons_self hd tl)]
    simp [ih fun r hr => h r (List.mem_cons_of_mem hd hr)]

theorem consultResolvers_first (binding : String) (node : Node) (uniformName : String) :
    ∀ (resolvers : List Resolver) (i : Nat) (r : Resolver),
      resolvers.get? i = some r → r binding node uniformName = true →
      (∀ j rj, j < i → resolvers.get? j = some rj → rj binding node uniformName = false) →
      consultResolvers resolvers binding node uniformName = some i := by
  intro resolvers
  induction resolvers with
  | nil =>
    intro i r hget
    simp at hget
  | cons hd tl ih =>
    intro i r hget htrue hmin
    cases i with
    | zero =>
      simp only [List.get?_cons_zero, Option.some.injEq] at hget
      subst hget
      unfold consultResolvers
      rw [htrue]
      rfl
    | succ n =>
      have hhd : hd binding node uniformName = false :=
        hmin 0 hd (Nat.zero_lt_succ n) rfl
      unfold consultResolvers
      rw [hhd]
      have hrec := ih n r hget htrue
        (fun j rj hj hg => hmin (j + 1) rj (Nat.succ_lt_succ hj) hg)
      simp [hrec]

/-- Claim C7: custom resolvers are consulted in registration order and the
first returning true short-circuits (no built-in resolution, no
warning); otherwise the fixed built-in table applies; `MATRIX_PALETTE`
on a node without a skin binds nothing and reports nothing; a name
unrecognized by both stages produces a warning and no binding. -/
theorem C7_applyAutoBinding_resolution (resolvers : List Resolver) (node : Node)
    (uniformName binding : String) :
    (∀ i r, resolvers.get? i = some r → r binding node uniformName = true →
      (∀ j rj, j < i → resolvers.get? j = some rj → rj binding node uniformName = false) →
      applyAutoBinding resolvers node uniformName binding = .custom i)
    ∧ ((∀ r ∈ resolvers, r binding node uniformName = false) →
      (∀ acc, (binding, acc) ∈ builtinTable →
        applyAutoBinding resolvers node uniformName binding = .builtin acc)
      ∧ (binding = "MATRIX_PALETTE" →
        (node.model = none →
          applyAutoBinding resolvers node uniformName binding = .paletteSkipped)
        ∧ (∀ m, node.model = some m → m.skin = none →
          applyAutoBinding resolvers node uniformName binding = .paletteSkipped)
        ∧ (∀ m s, node.model = some m → m.skin = some s →
          applyAutoBinding resolvers node uniformName binding = .paletteBound))
      ∧ ((∀ acc : Accessor, (binding, acc) ∉ builtinTable) → binding ≠ "MATRIX_PALETTE" →
        applyAutoBinding resolvers node uniformName binding = .warned)) := by
  constructor
  · intro i r hget htrue hmin
    unfold applyAutoBinding
    rw [consultResolvers_first binding node uniformName resolvers i r hget htrue hmin]
  · intro hnone
    have hcr := consultResolvers_none binding node uniformName resolvers hnone
    refine ⟨?_, ?_, ?_⟩
    · intro acc hmem
      simp only [builtinTable, List.mem_cons, List.mem_singleton, List.not_mem_nil,
        Prod.mk.injEq, or_false] at hmem
      rcases hmem with ⟨hb, ha⟩ | ⟨hb, ha⟩ | ⟨hb, ha⟩ | ⟨hb, ha⟩ | ⟨hb, ha⟩ | ⟨hb, ha⟩ |
        ⟨hb, ha⟩ | ⟨hb, ha⟩ | ⟨hb, ha⟩ | ⟨hb, ha⟩ <;>
        subst hb <;> subst ha <;> simp [applyAutoBinding, hcr]
    · intro hpal
      subst hpal
      refine ⟨?_, ?_, ?_⟩
      · intro hm
        simp [applyAutoBinding, hcr, hm]
      · intro m hm hs
        simp [applyAutoBinding, hcr, hm, hs]
      · intro m s hm hs
        simp [applyAutoBinding, hcr, hm, hs]
    · intro hnotin hpal
      have n1 : binding ≠ "WORLD_MATRIX" := fun he =>
        hnotin .worldMatrix (by simp [builtinTable, he])
      have n2 : binding ≠ "VIEW_MATRIX" := fun he =>
        hnotin .viewMatrix (by simp [builtinTable, he])
      have n3 : binding ≠ "PROJECTION_MATRIX" := fun he =>
        hnotin .projectionMatrix (by simp [builtinTable, he])
      have n4 : binding ≠ "WORLD_VIEW_MATRIX" := fun he =>
        hnotin .worldViewMatrix (by simp [builtinTable, he])
      have n5 : binding ≠ "VIEW_PROJECTION_MATRIX" := fun he =>
        hnotin .viewProjectionMatrix (by simp [builtinTable, he])
      have n6 : binding ≠ "WORLD_VIEW_PROJECTION_MATRIX" := fun he =>
        hnotin .worldViewProjectionMatrix (by simp [builtinTable, he])
      have n7 : binding ≠ "INVERSE_TRANSPOSE_WORLD_MATRIX" := fun he =>
        hnotin .inverseTransposeWorldMatrix (by simp [builtinTable, he])
      have n8 : binding ≠ "INVERSE_TRANSPOSE_WORLD_VIEW_MATRIX" := fun he =>
        hnotin .inverseTransposeWorldViewMatrix (by simp [builtinTable, he])
      have n9 : binding ≠ "CAMERA_WORLD_POSITION" := fun he =>
        hnotin .cameraWorldPosition (by simp [builtinTable, he])
      have n10 : binding ≠ "CAMERA_VIEW_POSITION" := fun he =>
        hnotin .cameraViewPosition (by simp [builtinTable, he])
      simp [applyAutoBinding, hcr, n1, n2, n3, n4, n5, n6, n7, n8, n9, n10, hpal]

/-- Witness for C7: a custom resolver claiming `"TIME"` short-circuits the
built-in stage and the warning; with no resolvers, `"WORLD_MATRIX"`
resolves through the built-in table, `"MATRIX_PALETTE"` on a skinless
node binds nothing, and an unknown name warns. -/
theorem C7_witness :
    applyAutoBinding [fun b _ _ => b = "TIME"] { nodeId := 0, model := none } "u" "TIME" =
      .custom 0 ∧
    applyAutoBinding [] { nodeId := 0, model := none } "u" "WORLD_MATRIX" =
      .builtin .worldMatrix ∧
    applyAutoBinding [] { nodeId := 0, model := some { skin := none } } "u"
      "MATRIX_PALETTE" = .paletteSkipped ∧
    applyAutoBinding [] { nodeId := 0, model := none } "u" "TIME" = .warned := by
  refine ⟨?_, ?_, ?_, ?_⟩
  · exact (C7_applyAutoBinding_resolution [fun b _ _ => b = "TIME"]
      { nodeId := 0, model := none } "u" "TIME").1 0 _ rfl (by decide)
      (fun j rj hj _ => absurd hj (Nat.not_lt_zero j))
  · exact (((C7_applyAutoBinding_resolution [] { nodeId := 0, model := none } "u"
      "WORLD_MATRIX").2 (by simp)).1 .worldMatrix (by simp [builtinTable]))
  · exact ((((C7_applyAutoBinding_resolution [] { nodeId := 0, model := some { skin := none } }
      "u" "MATRIX_PALETTE").2 (by simp)).2.1 rfl).2.1 { skin := none } rfl rfl)
  · exact (((C7_applyAutoBinding_resolution [] { nodeId := 0, model := none } "u"
      "TIME").2 (by simp)).2.2 (by intro acc; cases acc <;> simp [builtinTable])
      (by decide))

theorem mapFind_not_mem (m : List (String × String)) (k : String)
    (h : k ∉ m.map Prod.fst) : mapFind m k = none := by
  induction m with
  | nil => rfl
  | cons hd tl ih =>
    obtain ⟨k', v⟩ := hd
    simp only [List.map_cons, List.mem_cons] at h
    push_neg at h
    unfold mapFind
    rw [if_neg fun he => h.1 he.symm]
    exact ih h.2

theorem mapFind_mapErase_self (m : List (String × String)) (k : String)
    (hnd : (m.map Prod.fst).Nodup) : mapFind (mapErase m k) k = none := by
  induction m with
  | nil => rfl
  | cons hd tl ih =>
    obtain ⟨k', v⟩ := hd
    simp only [List.map_cons, List.nodup_cons] at hnd
    unfold mapErase
    by_cases he : k' = k
    · rw [if_pos he]
      subst he
      exact mapFind_not_mem tl k' hnd.1
    · rw [if_neg he]
      unfold mapFind
      rw [if_neg he]
      exact ih hnd.2

theorem mapFind_mapErase_other (m : List (String × String)) (k k' : String)
    (hne : k' ≠ k) : mapFind (mapErase m k) k' = mapFind m k' := by
  induction m with
  | nil => rfl
  | cons hd tl ih =>
    obtain ⟨k0, v⟩ := hd
    unfold mapErase
    by_cases he : k0 = k
    · rw [if_pos he]
      conv_rhs => unfold mapFind
      rw [if_neg fun h2 => hne (by rw [← h2]; exact he)]
    · rw [if_neg he]
      unfold mapFind
      by_cases h2 : k0 = k'
      · rw [if_pos h2, if_pos h2]
      · rw [if_neg h2, if_neg h2]
        exact ih

/-- Claim C10: `setParameterAutoBinding(name, NULL)` removes the existing
auto-binding entry for `name` from the map, records nothing new, and
leaves the rest of the map unchanged. -/
theorem C10_null_removes_entry (rs : RSAuto) (name : String)
    (hnd : (rs.autoBindings.map Prod.fst).Nodup) :
    mapFind (setParameterAutoBinding rs name none).1.autoBindings name = none
    ∧ ∀ k, k ≠ name →
      mapFind (setParameterAutoBinding rs name none).1.autoBindings k =
        mapFind rs.autoBindings k := by
  have hab : (setParameterAutoBinding rs name none).1.autoBindings =
      mapErase rs.autoBindings name := by
    cases h : rs.nodeBinding <;> simp [setParameterAutoBinding, h]
  constructor
  · rw [hab]
    exact mapFind_mapErase_self _ _ hnd
  · intro k hk
    rw [hab]
    exact mapFind_mapErase_other _ _ _ hk

/-- Witness for C10: removing `"a"` from a two-entry map empties its slot
and leaves `"b"` intact. -/
theorem C10_witness :
    mapFind (setParameterAutoBinding
      { autoBindings := [("a", "X"), ("b", "Y")], nodeBinding := none } "a" none).1.autoBindings
      "a" = none ∧
    mapFind (setParameterAutoBinding
      { autoBindings := [("a", "X"), ("b", "Y")], nodeBinding := none } "a" none).1.autoBindings
      "b" = some "Y" := by
  constructor
  · exact (C10_null_removes_entry
      { autoBindings := [("a", "X"), ("b", "Y")], nodeBinding := none } "a" (by decide)).1
  · have h := (C10_null_removes_entry
      { autoBindings := [("a", "X"), ("b", "Y")], nodeBinding := none } "a" (by decide)).2
      "b" (by decide)
    rw [h]
    rfl

theorem count_map_injective_one {α β : Type} [BEq β] [LawfulBEq β] (f : α → β)
    (hinj : ∀ a b, f a = f b → a = b) :
    ∀ l : List α, l.Nodup → ∀ x ∈ l, (l.map f).count (f x) = 1 := by
  intro l
  induction l with
  | nil =>
    intro _ x hx
    simp at hx
  | cons hd tl ih =>
    intro hnd x hx
    simp only [List.nodup_cons] at hnd
    simp only [List.map_cons, List.count_cons]
    rcases List.mem_cons.mp hx with rfl | hxtl
    · have hz : (tl.map f).count (f x) = 0 := by
        rw [List.count_eq_zero]
        intro hmem
        obtain ⟨y, hy, hfy⟩ := List.mem_map.mp hmem
        exact hnd.1 ((hinj y x hfy) ▸ hy)
      simp [hz]
    · have hne : (f hd == f x) = false := by
        rw [beq_eq_false_iff_ne]
        intro he
        exact hnd.1 ((hinj hd x he) ▸ hxtl)
      rw [ih hnd.2 x hxtl, hne]
      simp

/-- Claim C8: with no node binding attached, `setParameterAutoBinding`
records the entry without resolving it; a later `setNodeBinding` with a
non-null node different from the current one resolves and applies every
recorded auto-binding exactly once against the new node; and with a node
binding already attached, `setParameterAutoBinding` resolves and applies
the binding immediately. -/
theorem C8_deferred_resolution (rs : RSAuto) (name b : String) (n : Node) :
    (rs.nodeBinding = none →
      setParameterAutoBinding rs name (some b) =
        ({ rs with autoBindings := mapInsert rs.autoBindings name b }, []))
    ∧ (rs.nodeBinding ≠ some n →
      setNodeBinding rs (some n) =
        ({ rs with nodeBinding := some n },
          rs.autoBindings.map fun kv => (kv.1, some kv.2, n)))
    ∧ (rs.nodeBinding ≠ some n → (rs.autoBindings.map Prod.fst).Nodup →
      ∀ kv ∈ rs.autoBindings,
        (setNodeBinding rs (some n)).2.count (kv.1, some kv.2, n) = 1)
    ∧ (rs.nodeBinding = some n →
      setParameterAutoBinding rs name (some b) =
        ({ rs with autoBindings := mapInsert rs.autoBindings name b },
          [(name, some b, n)])) := by
  refine ⟨?_, ?_, ?_, ?_⟩
  · intro h
    simp [setParameterAutoBinding, h]
  · intro h
    simp [setNodeBinding, h]
  · intro h hnd kv hkv
    have hev : (setNodeBinding rs (some n)).2 =
        rs.autoBindings.map fun kv => (kv.1, some kv.2, n) := by
      simp [setNodeBinding, h]
    rw [hev]
    have hinj : ∀ a b : String × String,
        (a.1, some a.2, n) = (b.1, some b.2, n) → a = b := by
      intro a b hab
      simp only [Prod.mk.injEq, Option.some.injEq] at hab
      exact Prod.ext hab.1 hab.2.1
    exact count_map_injective_one (fun kv : String × String => (kv.1, some kv.2, n)) hinj
      rs.autoBindings (List.Nodup.of_map Prod.fst hnd) kv hkv
  · intro h
    simp [setParameterAutoBinding, h]

/-- Witness for C8: a binding recorded with no node attached produces no
resolution; attaching a node applies it exactly once; with the node
already attached, the binding is applied immediately. -/
theorem C8_witness :
    setParameterAutoBinding { autoBindings := [], nodeBinding := none } "u"
      (some "WORLD_MATRIX") =
      ({ autoBindings := [("u", "WORLD_MATRIX")], nodeBinding := none }, []) ∧
    (setNodeBinding { autoBindings := [("u", "WORLD_MATRIX")], nodeBinding := none }
      (some { nodeId := 1, model := none })).2.count
      ("u", some "WORLD_MATRIX", { nodeId := 1, model := none }) = 1 ∧
    setParameterAutoBinding
      { autoBindings := [], nodeBinding := some { nodeId := 1, model := none } } "u"
      (some "WORLD_MATRIX") =
      ({ autoBindings := [("u", "WORLD_MATRIX")],
          nodeBinding := some { nodeId := 1, model := none } },
        [("u", some "WORLD_MATRIX", { nodeId := 1, model := none })]) := by
  refine ⟨?_, ?_, ?_⟩
  · exact (C8_deferred_resolution { autoBindings := [], nodeBinding := none } "u"
      "WORLD_MATRIX" { nodeId := 1, model := none }).1 rfl
  · exact (C8_deferred_resolution
      { autoBindings := [("u", "WORLD_MATRIX")], nodeBinding := none } "u" "WORLD_MATRIX"
      { nodeId := 1, model := none }).2.2.1 (by simp) (by decide)
      ("u", "WORLD_MATRIX") (by decide)
  · exact (C8_deferred_resolution
      { autoBindings := [], nodeBinding := some { nodeId := 1, model := none } } "u"
      "WORLD_MATRIX" { nodeId := 1, model := none }).2.2.2 rfl

/-- Claim C6, evaluated at the failing input: `autoBindingToString` has no
case for `WORLD_MATRIX` and returns the empty string for it, so the enum
overload of `setParameterAutoBinding` records the binding string `""`
(and `applyAutoBinding` would warn on it) instead of behaving like the
string overload called with `"WORLD_MATRIX"` (which resolves the world
matrix through the built-in table). -/
theorem C6_worldMatrix_enum_lost :
    autoBindingToString .WORLD_MATRIX = some "" ∧
    setParameterAutoBindingEnum { autoBindings := [], nodeBinding := none } "u"
      .WORLD_MATRIX = ({ autoBindings := [("u", "")], nodeBinding := none }, []) ∧
    setParameterAutoBindingEnum { autoBindings := [], nodeBinding := none } "u"
      .WORLD_MATRIX ≠
      setParameterAutoBinding { autoBindings := [], nodeBinding := none } "u"
        (some "WORLD_MATRIX") ∧
    applyAutoBinding [] { nodeId := 0, model := none } "u" "" = .warned ∧
    applyAutoBinding [] { nodeId := 0, model := none } "u" "WORLD_MATRIX" =
      .builtin .worldMatrix := by
  refine ⟨rfl, rfl, by decide, rfl, rfl⟩

/-! ### Hierarchy traversal (claim C1) -/

theorem depth_anc (self : RenderState) :
    ∀ j, j ≤ self.depth → (self.anc j).depth = self.depth - j := by
  induction self with
  | root ps st =>
    intro j hj
    simp only [RenderState.depth, Nat.le_zero] at hj
    subst hj
    rfl
  | child ps st p ih =>
    intro j hj
    cases j with
    | zero => rfl
    | succ n =>
      show (p.anc n).depth = p.depth + 1 - (n + 1)
      rw [ih n (Nat.le_of_succ_le_succ hj)]
      omega

theorem self_ne_anc (self : RenderState) (r : Nat) (h1 : 1 ≤ r) (h2 : r ≤ self.depth) :
    self ≠ self.anc r := by
  intro he
  have hd := depth_anc self r h2
  rw [← he] at hd
  omega

theorem getTopmostAux_none (self : RenderState) :
    getTopmostAux self none = some (self.anc self.depth) := by
  induction self with
  | root ps st => rfl
  | child ps st p ih =>
    show getTopmostAux (RenderState.child ps st p) none = some (p.anc p.depth)
    unfold getTopmostAux
    simp [ih]

theorem getTopmostAux_step (self : RenderState) :
    ∀ m, m + 1 ≤ self.depth →
      getTopmostAux self (some (self.anc (m + 1))) = some (self.anc m) := by
  induction self with
  | root ps st =>
    intro m hm
    simp [RenderState.depth] at hm
  | child ps st p ih =>
    intro m hm
    show getTopmostAux (RenderState.child ps st p) (some (p.anc m)) = _
    cases m with
    | zero =>
      unfold getTopmostAux
      simp [RenderState.anc]
    | succ n =>
      unfold getTopmostAux
      have hne : p ≠ p.anc (n + 1) :=
        self_ne_anc p (n + 1) (Nat.succ_le_succ (Nat.zero_le n))
          (Nat.le_of_succ_le_succ hm)
      rw [if_neg (by simpa using hne)]
      exact ih n (Nat.le_of_succ_le_succ hm)

theorem descChain_child (ps : List String) (st : Option StateBlock) (p : RenderState) :
    ∀ r, descChain (.child ps st p) (r + 1) = descChain p r ++ [.child ps st p] := by
  intro r
  induction r with
  | zero => rfl
  | succ n ih =>
    show RenderState.anc (.child ps st p) (n + 1) :: descChain (.child ps st p) (n + 1) = _
    rw [ih]
    rfl

theorem chain_eq_descChain (self : RenderState) :
    self.chain = descChain self (self.depth + 1) := by
  induction self with
  | root ps st => rfl
  | child ps st p ih =>
    show p.chain ++ [RenderState.child ps st p] = _
    rw [ih, ← descChain_child]
    rfl

theorem chain_last (self : RenderState) : ∃ l, self.chain = l ++ [self] := by
  cases self with
  | root ps st => exact ⟨[], rfl⟩
  | child ps st p => exact ⟨p.chain, rfl⟩

theorem bindLoop_none_step (fuel : Nat) (self : RenderState) (below : Option RenderState)
    (g : StateBlock) (h : self.getTopmost below = none) :
    bindLoop (fuel + 1) self below g = (g, []) := by
  unfold bindLoop
  rw [h]

theorem bindLoop_some_step (fuel : Nat) (self : RenderState) (below : Option RenderState)
    (g : StateBlock) (rs : RenderState) (h : self.getTopmost below = some rs) :
    bindLoop (fuel + 1) self below g =
      ((bindLoop fuel self (some rs) (bindChainStep rs g).1).1,
        rs.params.map GpuCall.bindParam ++ (bindChainStep rs g).2 ++
          (bindLoop fuel self (some rs) (bindChainStep rs g).1).2) := by
  conv_lhs => rw [bindLoop]
  rw [h]

theorem bindLoop_anc (self : RenderState) :
    ∀ (r : Nat) (fuel : Nat) (g : StateBlock), r ≤ self.depth → r + 1 ≤ fuel →
      bindLoop fuel self (some (self.anc r)) g = bindChain (descChain self r) g := by
  intro r
  induction r with
  | zero =>
    intro fuel g _ hfuel
    cases fuel with
    | zero => omega
    | succ f =>
      have h0 : self.getTopmost (some (self.anc 0)) = none := by
        unfold RenderState.getTopmost
        rw [if_pos]
        simp [RenderState.anc]
      rw [bindLoop_none_step f self _ g h0]
      rfl
  | succ n ih =>
    intro fuel g hr hfuel
    cases fuel with
    | zero => omega
    | succ f =>
      have hne : self ≠ self.anc (n + 1) :=
        self_ne_anc self (n + 1) (Nat.succ_le_succ (Nat.zero_le n)) hr
      have hgt : self.getTopmost (some (self.anc (n + 1))) = some (self.anc n) := by
        unfold RenderState.getTopmost
        rw [if_neg (by simpa using hne)]
        exact getTopmostAux_step self n hr
      rw [bindLoop_some_step f self _ g _ hgt]
      rw [ih f (bindChainStep (self.anc n) g).1 (Nat.le_of_succ_le hr)
        (Nat.le_of_succ_le_succ hfuel)]
      rfl

theorem bindLoop_top (self : RenderState) (g : StateBlock) :
    bindLoop (self.depth + 2) self none g = bindChain self.chain g := by
  rw [chain_eq_descChain]
  have hgt : self.getTopmost none = some (self.anc self.depth) := by
    unfold RenderState.getTopmost
    rw [if_neg (by simp)]
    exact getTopmostAux_none self
  rw [show self.depth + 2 = self.depth + 1 + 1 from rfl]
  rw [bindLoop_some_step (self.depth + 1) self none g _ hgt]
  rw [bindLoop_anc self self.depth (self.depth + 1)
    (bindChainStep (self.anc self.depth) g).1 (Nat.le_refl _) (Nat.le_refl _)]
  rfl

theorem unionBits_chain (self : RenderState) :
    self.unionBits = self.chain.foldl (fun acc rs => acc ||| rs.ownBits) 0 := by
  induction self with
  | root ps st =>
    show RenderState.ownBits (.root ps st) = 0 ||| RenderState.ownBits (.root ps st)
    rw [Nat.zero_or]
  | child ps st p ih =>
    show RenderState.ownBits (.child ps st p) ||| p.unionBits =
      (p.chain ++ [RenderState.child ps st p]).foldl (fun acc rs => acc ||| rs.ownBits) 0
    rw [List.foldl_append, ← ih, Nat.lor_comm]
    rfl

theorem bindChain_val (f : StateField) :
    ∀ (levels : List RenderState) (g : StateBlock),
      fieldVal f (bindChain levels g).1 =
        (lastSetBlock f levels).elim (fieldVal f g) (fieldVal f) := by
  intro levels
  induction levels with
  | nil =>
    intro g
    rfl
  | cons rs rest ih =>
    intro g
    show fieldVal f (bindChain rest (bindChainStep rs g).1).1 = _
    rw [ih]
    cases hst : rs.state with
    | none =>
      have h1 : (bindChainStep rs g).1 = g := by simp [bindChainStep, hst]
      have h2 : lastSetBlock f (rs :: rest) = lastSetBlock f rest := by
        simp [lastSetBlock, List.filterMap_cons, hst]
      rw [h1, h2]
    | some sb =>
      have h1 : (bindChainStep rs g).1 = (StateBlock.bindNoRestore sb g).1 := by
        simp [bindChainStep, hst]
      rw [h1]
      by_cases hb : sb.bits &&& fieldBit f ≠ 0
      · have hfm : ((rs :: rest).filterMap RenderState.state).filter
            (fun sb => decide (sb.bits &&& fieldBit f ≠ 0)) =
            sb :: ((rest.filterMap RenderState.state).filter
              (fun sb => decide (sb.bits &&& fieldBit f ≠ 0))) := by
          simp [List.filterMap_cons, hst, List.filter_cons, hb]
        rcases hT : (rest.filterMap RenderState.state).filter
            (fun sb => decide (sb.bits &&& fieldBit f ≠ 0)) with _ | ⟨y, ys⟩
        · have hrest : lastSetBlock f rest = none := by
            simp only [lastSetBlock, hT]
            rfl
          have hcons : lastSetBlock f (rs :: rest) = some sb := by
            rw [lastSetBlock, hfm, hT]
            rfl
          rw [hrest, hcons]
          show fieldVal f (StateBlock.bindNoRestore sb g).1 = fieldVal f sb
          rw [bindNoRestore_val]
          simp [hb]
        · have hrest : lastSetBlock f rest = (y :: ys).getLast? := by
            rw [lastSetBlock, hT]
          have hcons : lastSetBlock f (rs :: rest) = (y :: ys).getLast? := by
            rw [lastSetBlock, hfm, hT, List.getLast?_cons_cons]
          rw [hrest, hcons]
          cases hL : (y :: ys).getLast? with
          | none => simp at hL
          | some z => rfl
      · have hfm : ((rs :: rest).filterMap RenderState.state).filter
            (fun sb => decide (sb.bits &&& fieldBit f ≠ 0)) =
            (rest.filterMap RenderState.state).filter
              (fun sb => decide (sb.bits &&& fieldBit f ≠ 0)) := by
          simp [List.filterMap_cons, hst, List.filter_cons, hb]
        have hcons : lastSetBlock f (rs :: rest) = lastSetBlock f rest := by
          rw [lastSetBlock, hfm, lastSetBlock]
        have hval : fieldVal f (StateBlock.bindNoRestore sb g).1 = fieldVal f g := by
          rw [bindNoRestore_val]
          simp [hb]
        rw [hcons, hval]

theorem lastSetBlock_of_suffix (f : StateField) (l1 : List RenderState) (a : RenderState)
    (l2 : List RenderState) (sba : StateBlock) (hst : a.state = some sba)
    (hb : sba.bits &&& fieldBit f ≠ 0)
    (h2 : ∀ rs ∈ l2, ∀ sb', RenderState.state rs = some sb' →
      sb'.bits &&& fieldBit f = 0) :
    lastSetBlock f (l1 ++ a :: l2) = some sba := by
  have hl2 : (l2.filterMap RenderState.state).filter
      (fun sb => decide (sb.bits &&& fieldBit f ≠ 0)) = [] := by
    rw [List.filter_eq_nil_iff]
    intro sb' hmem
    obtain ⟨rs, hrs, hsome⟩ := List.mem_filterMap.mp hmem
    simp [h2 rs hrs sb' hsome]
  rw [lastSetBlock, List.filterMap_append, List.filter_append]
  have hmid : ((a :: l2).filterMap RenderState.state).filter
      (fun sb => decide (sb.bits &&& fieldBit f ≠ 0)) = [sba] := by
    have h1 : ((a :: l2).filterMap RenderState.state).filter
        (fun sb => decide (sb.bits &&& fieldBit f ≠ 0)) =
        sba :: ((l2.filterMap RenderState.state).filter
          (fun sb => decide (sb.bits &&& fieldBit f ≠ 0))) := by
      simp [List.filterMap_cons, hst, List.filter_cons, hb]
    rw [h1, hl2]
  rw [hmid, List.getLast?_concat]

/-- Claim C1: `RenderState::bind(pass)` computes the union of the override
bits of this `RenderState` and every ancestor, calls `StateBlock::restore`
exactly once with that union, and then visits the chain top-down (root
ancestor first, this `RenderState` last), binding every level's
parameters to the pass's effect and calling `bindNoRestore` on every
level's block in that order; consequently a state whose override bit is
set in the lowest level that sets it ends with that level's value: in
particular a state set by this `RenderState`'s block holds this block's
value, and a state set by an ancestor and not below it holds the
ancestor's (inherited) value. -/
theorem C1_bind_hierarchy (self : RenderState) (g : StateBlock) :
    (RenderState.bind self g =
      ((bindChain self.chain (StateBlock.restore g self.unionBits).1).1,
        (StateBlock.restore g self.unionBits).2 ++
          (bindChain self.chain (StateBlock.restore g self.unionBits).1).2))
    ∧ self.unionBits = self.chain.foldl (fun acc rs => acc ||| rs.ownBits) 0
    ∧ (∀ (f : StateField) (l1 : List RenderState) (a : RenderState)
        (l2 : List RenderState) (sba : StateBlock),
        self.chain = l1 ++ a :: l2 → RenderState.state a = some sba →
        sba.bits &&& fieldBit f ≠ 0 →
        (∀ rs ∈ l2, ∀ sb', RenderState.state rs = some sb' →
          sb'.bits &&& fieldBit f = 0) →
        fieldVal f (RenderState.bind self g).1 = fieldVal f sba)
    ∧ (∀ (f : StateField) (sb : StateBlock), RenderState.state self = some sb →
        sb.bits &&& fieldBit f ≠ 0 →
        fieldVal f (RenderState.bind self g).1 = fieldVal f sb) := by
  have hpart1 : RenderState.bind self g =
      ((bindChain self.chain (StateBlock.restore g self.unionBits).1).1,
        (StateBlock.restore g self.unionBits).2 ++
          (bindChain self.chain (StateBlock.restore g self.unionBits).1).2) := by
    show ((bindLoop (self.depth + 2) self none (StateBlock.restore g self.unionBits).1).1,
      (StateBlock.restore g self.unionBits).2 ++
        (bindLoop (self.depth + 2) self none (StateBlock.restore g self.unionBits).1).2) = _
    rw [bindLoop_top]
  have hgen : ∀ (f : StateField) (l1 : List RenderState) (a : RenderState)
      (l2 : List RenderState) (sba : StateBlock),
      self.chain = l1 ++ a :: l2 → RenderState.state a = some sba →
      sba.bits &&& fieldBit f ≠ 0 →
      (∀ rs ∈ l2, ∀ sb', RenderState.state rs = some sb' →
        sb'.bits &&& fieldBit f = 0) →
      fieldVal f (RenderState.bind self g).1 = fieldVal f sba := by
    intro f l1 a l2 sba hchain hst hb h2
    have hval : fieldVal f (RenderState.bind self g).1 =
        fieldVal f (bindChain self.chain (StateBlock.restore g self.unionBits).1).1 := by
      rw [hpart1]
    rw [hval, bindChain_val, hchain, lastSetBlock_of_suffix f l1 a l2 sba hst hb h2]
    rfl
  refine ⟨hpart1, unionBits_chain self, hgen, ?_⟩
  intro f sb hself hb
  obtain ⟨l, hl⟩ := chain_last self
  exact hgen f l self [] sb (by rw [hl]) hself hb (by simp)

/-- Witness for C1: in a parent→child hierarchy where the parent's block
sets cull face on and the child's block sets only depth test, binding
the child leaves cull face at the parent's (inherited) value and depth
test at the child's value. -/
theorem C1_witness :
    fieldVal .cullFace
      (RenderState.bind
        (RenderState.child [] (some (StateBlock.init.setDepthTest true))
          (RenderState.root [] (some (StateBlock.init.setCullFace true))))
        StateBlock.init).1 = FieldVal.b true ∧
    fieldVal .depthTest
      (RenderState.bind
        (RenderState.child [] (some (StateBlock.init.setDepthTest true))
          (RenderState.root [] (some (StateBlock.init.setCullFace true))))
        StateBlock.init).1 = FieldVal.b true := by
  constructor
  · exact (C1_bind_hierarchy
      (RenderState.child [] (some (StateBlock.init.setDepthTest true))
        (RenderState.root [] (some (StateBlock.init.setCullFace true))))
      StateBlock.init).2.2.1 .cullFace []
      (RenderState.root [] (some (StateBlock.init.setCullFace true)))
      [RenderState.child [] (some (StateBlock.init.setDepthTest true))
        (RenderState.root [] (some (StateBlock.init.setCullFace true)))]
      (StateBlock.init.setCullFace true) rfl rfl (by decide)
      (by
        intro rs hrs sb' hsb'
        simp only [List.mem_singleton] at hrs
        subst hrs
        simp only [RenderState.state] at hsb'
        cases hsb'
        decide)
  · exact (C1_bind_hierarchy
      (RenderState.child [] (some (StateBlock.init.setDepthTest true))
        (RenderState.root [] (some (StateBlock.init.setCullFace true))))
      StateBlock.init).2.2.2 .depthTest (StateBlock.init.setDepthTest true) rfl (by decide)

end GamePlay
